import Mathlib

/-!
Verification development for the desktop-generator scene-synthesis and
labeling pipeline (state.py, screen.py, renderer.py, api.py and the task
emitters under tasks/).

Shallow embedding conventions:

* The injected random source (Python random.Random) is modelled as a
  deterministic stream of natural numbers with a cursor; every primitive
  (randint, choice, sample, shuffle) consumes draws from the stream in the
  order the Python code consumes them.
* Python dicts keyed by icon id are modelled as insertion-ordered
  association lists; the dict contract makes the keys pairwise distinct.
* Machine integers are Nat (all pixel quantities in the source are
  non-negative); where a Python subtraction can go negative (crop-relative
  coordinates, label centering) we use Int.  Python floor division by a
  positive constant agrees with Nat division and with Mathlib Int division.
* Two places in the source multiply small integers by the float constants
  0.6, 0.4 and 1.5 and truncate with int().  For the magnitudes involved
  (list lengths below a few thousand, cell indices below 6) the double
  computation is exact enough that int(n * 0.6) = 3*n/5, int(n * 0.4) =
  2*n/5 and int(20 + c*w*1.5) = 20 + 3*c*w/2 in exact Nat arithmetic, which
  is how they are embedded.
* PIL rendering is modelled as the ordered list of compositing operations
  (paste icon bitmap, draw text, paste loading panel); the raster bytes are
  a read-only function of that list and the preloaded asset set.
-/

namespace DesktopGen

/-- Deterministic model of the injected random source: a stream of draws
plus a cursor.  A fixed seed fixes the stream; consuming a draw advances
the cursor. -/
structure Rng where
  stream : Nat → Nat
  pos : Nat

/-- Consume one draw from the stream. -/
def Rng.next (r : Rng) : Nat × Rng :=
  (r.stream r.pos, ⟨r.stream, r.pos + 1⟩)

/-- Model of rng.randint(lo, hi): one draw, result in the inclusive range
lo..hi whenever lo is at most hi. -/
def rrandint (r : Rng) (lo hi : Nat) : Nat × Rng :=
  let (v, r1) := r.next
  (lo + v % (hi + 1 - lo), r1)

/-- Model of rng.choice(l): one draw selects an index into l. -/
def rchoice {α : Type} [Inhabited α] (r : Rng) (l : List α) : α × Rng :=
  let (v, r1) := r.next
  (l.getD (v % l.length) default, r1)

/-- Model of rng.sample(l, k): sampling without replacement; each of the k
picks consumes one draw that selects an index into the remaining pool. -/
def sampleAux {α : Type} [Inhabited α] : Nat → Rng → List α → List α × Rng
  | 0, r, _ => ([], r)
  | _ + 1, r, [] => ([], r)
  | k + 1, r, x :: xs =>
    let (v, r1) := r.next
    let i := v % (x :: xs).length
    let picked := (x :: xs).getD i default
    let rest := (x :: xs).eraseIdx i
    let (s, r2) := sampleAux k r1 rest
    (picked :: s, r2)

/-- Model of rng.sample(l, k). -/
def rsample {α : Type} [Inhabited α] (r : Rng) (l : List α) (k : Nat) : List α × Rng :=
  sampleAux k r l

/-- Model of rng.shuffle(l): a random permutation of l, realised as
sampling all of l without replacement. -/
def rshuffle {α : Type} [Inhabited α] (r : Rng) (l : List α) : List α × Rng :=
  sampleAux l.length r l

/-- Metadata of one catalog entry, as stored in the icon dictionaries
returned by screen.get_desktop_icons and screen.get_taskbar_icons. -/
structure IconInfo where
  label : String
  required : Bool
deriving DecidableEq, Inhabited

/-- An icon dictionary: insertion-ordered association list from icon id to
metadata.  The Python dict contract makes the keys pairwise distinct. -/
abbrev Catalog := List (String × IconInfo)

/-- One annotated element (iconlist region, datetime area, ...), the
fields of cudag's AnnotatedElement that this repository reads. -/
structure AnnElement where
  elementId : Nat
  label : String
  elementType : String
  varyN : Bool
  randomOrder : Bool
  layout : String
  bbox : Nat × Nat × Nat × Nat
  toleranceX : Nat
  toleranceY : Nat
deriving DecidableEq, Inhabited

/-- One task template from the annotation config. -/
structure AnnTask where
  action : String
  targetElementId : Nat
  taskType : String
  promptTemplate : String
deriving DecidableEq, Inhabited

/-- The designated wait task descriptor from the annotation config. -/
structure WaitTaskDesc where
  taskType : String
  waitTime : Rat
deriving DecidableEq, Inhabited

/-- The loaded annotation configuration, with the icon dictionaries the
screen module derives from it.  The case where the annotation directory is
absent (module-level fallback tables in screen.py) is covered by the
corresponding fallback value of this structure. -/
structure AnnConfig where
  elements : List AnnElement
  tasks : List AnnTask
  waitTask : Option WaitTaskDesc
  desktopIcons : Catalog
  taskbarIcons : Catalog
  iconW : Nat
  iconH : Nat
deriving DecidableEq, Inhabited

/-- get_element_by_label from cudag as used throughout the source: first
element carrying the given label. -/
def getElementByLabel (c : AnnConfig) (lab : String) : Option AnnElement :=
  c.elements.find? (fun e => e.label == lab)

/-- get_element: first element with the given element id. -/
def getElement (c : AnnConfig) (eid : Nat) : Option AnnElement :=
  c.elements.find? (fun e => e.elementId == eid)

/-- DESKTOP_ICON_PADDING from screen.py. -/
def DESKTOP_ICON_PADDING : Nat := 20

/-- DESKTOP_LABEL_HEIGHT from screen.py. -/
def DESKTOP_LABEL_HEIGHT : Nat := 20

/-- DESKTOP_CELL_WIDTH from screen.py as a function of the configured icon
width. -/
def cellWidth (iconW : Nat) : Nat := iconW + DESKTOP_ICON_PADDING

/-- DESKTOP_CELL_HEIGHT from screen.py as a function of the configured
icon height. -/
def cellHeight (iconH : Nat) : Nat :=
  iconH + DESKTOP_LABEL_HEIGHT + DESKTOP_ICON_PADDING

/-- TASKBAR_ICON_GAP from screen.py. -/
def TASKBAR_ICON_GAP : Nat := 8

/-- TASKBAR_LEFT_MARGIN from screen.py. -/
def TASKBAR_LEFT_MARGIN : Nat := 946

/-- TASKBAR_Y_OFFSET from screen.py. -/
def TASKBAR_Y_OFFSET : Nat := 1042

/-- DATETIME_FONT_SIZE from screen.py. -/
def DATETIME_FONT_SIZE : Nat := 9

/-- IconPlacement from state.py. -/
structure IconPlacement where
  iconId : String
  x : Nat
  y : Nat
  width : Nat
  height : Nat
  label : String
deriving DecidableEq, Inhabited

/-- IconPlacement.center: the click target, with truncating division. -/
def IconPlacement.center (p : IconPlacement) : Nat × Nat :=
  (p.x + p.width / 2, p.y + p.height / 2)

/-- IconPlacement.bounds as (x, y, width, height). -/
def IconPlacement.bounds (p : IconPlacement) : Nat × Nat × Nat × Nat :=
  (p.x, p.y, p.width, p.height)

/-- The list of required icon ids of a catalog, in catalog order
(state.py: the keys whose entry carries required=True). -/
def requiredOf (icons : Catalog) : List String :=
  (icons.filter (fun kv => kv.2.required)).map (fun kv => kv.1)

/-- The list of optional icon ids: every key that is not in the required
list, in catalog order (state.py). -/
def optionalOf (icons : Catalog) : List String :=
  (icons.map (fun kv => kv.1)).filter (fun k => !(requiredOf icons).contains k)

/-- The icon-subset selection shared by _place_desktop_icons and
_place_taskbar_icons.  pctNum/5 is the lower fraction bound: 3/5 models
the desktop's int(len(optional) * 0.6) and 2/5 the taskbar's
int(len(optional) * 0.4); for the list lengths involved the float
truncations equal these exact floors. -/
def selectIds (varyN : Bool) (pctNum : Nat) (icons : Catalog) (hint : Nat)
    (r : Rng) : List String × Rng :=
  let req := requiredOf icons
  let opt := optionalOf icons
  if varyN then
    let minOptional := pctNum * opt.length / 5
    let (k, r1) := rrandint r minOptional opt.length
    let (sel, r2) := rsample r1 opt k
    (req ++ sel, r2)
  else
    (req ++ opt.take (hint - req.length), r)

/-- Lookup of an icon's display label with empty-string default
(state.py: icon_info.get with default empty). -/
def labelOf (icons : Catalog) (id : String) : String :=
  match icons.find? (fun kv => kv.1 == id) with
  | some kv => kv.2.label
  | none => ""

/-- Lookup of an icon's display label defaulting to the id itself
(iconlist_task.py and wait_loading.py: icon_info.get falling back to
icon.icon_id). -/
def labelOrId (icons : Catalog) (id : String) : String :=
  match icons.find? (fun kv => kv.1 == id) with
  | some kv => kv.2.label
  | none => id

/-- vary_n setting with the source's default when the element is absent. -/
def elVaryN : Option AnnElement → Bool
  | some e => e.varyN
  | none => true

/-- random_order setting with the source's default. -/
def elRandomOrder : Option AnnElement → Bool
  | some e => e.randomOrder
  | none => true

/-- layout setting with the source's default. -/
def elLayout : Option AnnElement → String
  | some e => e.layout
  | none => ""

/-- The stacked strategy: column-major dense grid with eight rows,
carrying the running enumeration index. -/
def stackedFrom (iconW iconH : Nat) (icons : Catalog) :
    Nat → List String → List IconPlacement
  | _, [] => []
  | i, id :: rest =>
    { iconId := id
      x := 20 + (i / 8) * cellWidth iconW
      y := 20 + (i % 8) * cellHeight iconH
      width := iconW
      height := iconH
      label := labelOf icons id } :: stackedFrom iconW iconH icons (i + 1) rest

/-- The 6 x 8 candidate cell grid of the sparse strategy, in the source's
generation order. -/
def sparseCells : List (Nat × Nat) :=
  (List.range 6).flatMap (fun c => (List.range 8).map (fun row => (c, row)))

/-- The (column, row) order used to re-sort the selected sparse cells. -/
def cellLe (a b : Nat × Nat) : Prop :=
  a.1 < b.1 ∨ (a.1 = b.1 ∧ a.2 ≤ b.2)

instance : DecidableRel cellLe := fun a b => by
  unfold cellLe; infer_instance

/-- One sparse placement: cell (col, row) paired with an icon id.  The
widened horizontal pitch models int(20 + col * cellWidth * 1.5), exact in
doubles for these magnitudes, so equal to 20 + floor(3*col*cellWidth/2). -/
def sparseMk (iconW iconH : Nat) (icons : Catalog) (cr : Nat × Nat)
    (id : String) : IconPlacement :=
  { iconId := id
    x := 20 + 3 * cr.1 * cellWidth iconW / 2
    y := 20 + cr.2 * cellHeight iconH
    width := iconW
    height := iconH
    label := labelOf icons id }

/-- The sparse strategy: shuffle the candidate cells, keep the first
len(icon_ids) of them, re-sort column-major, and pair them with the icon
ids (zip truncates to the shorter list). -/
def sparsePlace (iconW iconH : Nat) (icons : Catalog) (ids : List String)
    (r : Rng) : List IconPlacement × Rng :=
  let (shuffled, r1) := rshuffle r sparseCells
  let selectedCells := shuffled.take ids.length
  let sortedCells := List.insertionSort cellLe selectedCells
  (List.zipWith (sparseMk iconW iconH icons) sortedCells ids, r1)

/-- The overlap test of the random strategy: candidate (x, y) collides
with a used position when both axis distances are below the cell pitch. -/
def overlapsAny (iconW iconH : Nat) (used : List (Nat × Nat)) (x y : Nat) : Bool :=
  used.any (fun p =>
    decide (Nat.dist x p.1 < cellWidth iconW) &&
    decide (Nat.dist y p.2 < cellHeight iconH))

/-- Upper x bound of the random strategy's candidate positions. -/
def randMaxX (iconW : Nat) : Nat := 1920 - cellWidth iconW - 100

/-- Upper y bound of the random strategy's candidate positions. -/
def randMaxY (iconH : Nat) : Nat := 1032 - cellHeight iconH - 50

/-- The rejection-sampling loop of the random strategy: draw a candidate,
accept it when it does not collide, otherwise retry while attempts remain;
when the last attempt also collides it is accepted anyway.  The source
calls this with a budget of 50. -/
def tryPosition (iconW iconH : Nat) (used : List (Nat × Nat)) :
    Nat → Rng → (Nat × Nat) × Rng
  | 0, r => ((20, 20), r)
  | fuel + 1, r =>
    let (x, r1) := rrandint r 20 (randMaxX iconW)
    let (y, r2) := rrandint r1 20 (randMaxY iconH)
    if overlapsAny iconW iconH used x y then
      if fuel == 0 then ((x, y), r2)
      else tryPosition iconW iconH used fuel r2
    else ((x, y), r2)

/-- The random strategy: one accepted position per icon, each appended to
the used-position list. -/
def randomPlaceAux (iconW iconH : Nat) (icons : Catalog) :
    List String → List (Nat × Nat) → Rng → List IconPlacement × Rng
  | [], _, r => ([], r)
  | id :: rest, used, r =>
    let (p, r1) := tryPosition iconW iconH used 50 r
    let (ps, r2) := randomPlaceAux iconW iconH icons rest (used ++ [p]) r1
    ({ iconId := id
       x := p.1
       y := p.2
       width := iconW
       height := iconH
       label := labelOf icons id } :: ps, r2)

/-- Layout style resolution: a recognised configured layout is used as is,
anything else (including the empty default) draws one of the three styles
at random. -/
def chooseLayout (layout : String) (r : Rng) : String × Rng :=
  if layout = "stacked" ∨ layout = "sparse" ∨ layout = "random" then (layout, r)
  else rchoice r ["stacked", "sparse", "random"]

/-- Selection plus optional shuffle of the desktop icon ids, the prologue
of _place_desktop_icons. -/
def desktopSelection (cfg : AnnConfig) (r : Rng) (numIcons : Nat) :
    List String × Rng :=
  let el := getElementByLabel cfg ("desktop")
  let (ids, r1) := selectIds (elVaryN el) 3 cfg.desktopIcons numIcons r
  if elRandomOrder el then rshuffle r1 ids else (ids, r1)

/-- The layout style _place_desktop_icons ends up using, together with the
random state after the style draw. -/
def desktopStyle (cfg : AnnConfig) (r : Rng) (numIcons : Nat) : String × Rng :=
  chooseLayout (elLayout (getElementByLabel cfg ("desktop")))
    (desktopSelection cfg r numIcons).2

/-- _place_desktop_icons from state.py. -/
def placeDesktopIcons (cfg : AnnConfig) (r : Rng) (numIcons : Nat) :
    List IconPlacement × Rng :=
  let ids := (desktopSelection cfg r numIcons).1
  let (style, r2) := desktopStyle cfg r numIcons
  if style = "stacked" then
    (stackedFrom cfg.iconW cfg.iconH cfg.desktopIcons 0 ids, r2)
  else if style = "sparse" then
    sparsePlace cfg.iconW cfg.iconH cfg.desktopIcons ids r2
  else
    randomPlaceAux cfg.iconW cfg.iconH cfg.desktopIcons ids [] r2

/-- Left-to-right taskbar run at fixed vertical offset with constant gap. -/
def taskbarFrom : Nat → List String → List IconPlacement
  | _, [] => []
  | x, id :: rest =>
    { iconId := id
      x := x
      y := TASKBAR_Y_OFFSET
      width := 27
      height := 28
      label := "" } :: taskbarFrom (x + 27 + TASKBAR_ICON_GAP) rest

/-- _place_taskbar_icons from state.py. -/
def placeTaskbarIcons (cfg : AnnConfig) (r : Rng) (numIcons : Nat) :
    List IconPlacement × Rng :=
  let el := getElementByLabel cfg ("taskbar")
  let (sel, r1) := selectIds (elVaryN el) 2 cfg.taskbarIcons numIcons r
  let (sel2, r2) := if elRandomOrder el then rshuffle r1 sel else (sel, r1)
  (taskbarFrom TASKBAR_LEFT_MARGIN sel2, r2)

/-- Zero-padding of minutes, modelling the 02d format directive. -/
def pad2 (n : Nat) : String := if n < 10 then "0" ++ toString n else toString n

/-- _generate_datetime from state.py: random 12-hour time and random
month/day/year as a two-line string. -/
def generateDatetime (r : Rng) : String × Rng :=
  let (hour, r1) := rrandint r 1 12
  let (minute, r2) := rrandint r1 0 59
  let (amPm, r3) := rchoice r2 ["AM", "PM"]
  let (month, r4) := rrandint r3 1 12
  let (day, r5) := rrandint r4 1 28
  let (year, r6) := rrandint r5 2024 2025
  (toString hour ++ ":" ++ pad2 minute ++ " " ++ amPm ++ "\n" ++
    toString month ++ "/" ++ toString day ++ "/" ++ toString year, r6)

/-- _get_datetime_position from state.py: centre-x and top-y of the
datetime element's bbox, or the fixed fallback point. -/
def getDatetimePosition (cfg : AnnConfig) : Nat × Nat :=
  match getElementByLabel cfg ("datetime") with
  | none => (1868, 1043)
  | some el => (el.bbox.1 + el.bbox.2.2.1 / 2, el.bbox.2.1)

/-- DesktopState from state.py. -/
structure DesktopState where
  desktopIcons : List IconPlacement
  taskbarIcons : List IconPlacement
  datetimeText : String
  datetimePosition : Nat × Nat
  odLoadingVisible : Bool
deriving DecidableEq, Inhabited

/-- DesktopState.generate from state.py: datetime first, then desktop
placements, then taskbar placements, threading the one random source. -/
def DesktopState.generate (cfg : AnnConfig) (r : Rng)
    (numDesktopIcons numTaskbarIcons : Nat) (odLoadingVisible : Bool) :
    DesktopState × Rng :=
  let (dt, r1) := generateDatetime r
  let dtPos := getDatetimePosition cfg
  let (dps, r2) := placeDesktopIcons cfg r1 numDesktopIcons
  let (tps, r3) := placeTaskbarIcons cfg r2 numTaskbarIcons
  ({ desktopIcons := dps
     taskbarIcons := tps
     datetimeText := dt
     datetimePosition := dtPos
     odLoadingVisible := odLoadingVisible }, r3)

/-- One desktop entry of the ground-truth record built by
DesktopState.to_ground_truth. -/
structure GTDesktopIcon where
  id : String
  label : String
  bounds : Nat × Nat × Nat × Nat
  center : Nat × Nat
deriving DecidableEq, Inhabited

/-- One taskbar entry of the ground-truth record (no label field). -/
structure GTTaskbarIcon where
  id : String
  bounds : Nat × Nat × Nat × Nat
  center : Nat × Nat
deriving DecidableEq, Inhabited

/-- The ground-truth record from DesktopState.to_ground_truth. -/
structure GroundTruth where
  desktopIcons : List GTDesktopIcon
  taskbarIcons : List GTTaskbarIcon
  datetimeText : String
  datetimePosition : Nat × Nat
  odLoadingVisible : Bool
deriving DecidableEq, Inhabited

/-- DesktopState.to_ground_truth from state.py: a pure projection of the
state into the ground-truth record. -/
def DesktopState.toGroundTruth (s : DesktopState) : GroundTruth :=
  { desktopIcons := s.desktopIcons.map (fun i =>
      { id := i.iconId, label := i.label, bounds := i.bounds, center := i.center })
    taskbarIcons := s.taskbarIcons.map (fun i =>
      { id := i.iconId, bounds := i.bounds, center := i.center })
    datetimeText := s.datetimeText
    datetimePosition := s.datetimePosition
    odLoadingVisible := s.odLoadingVisible }

/-- One compositing operation of the renderer's draw plan.  The raster
image is a pure function of the ordered draw plan and the read-only asset
set, so draw-plan equality models byte-identical output images. -/
inductive DrawOp where
  | pasteIcon (cacheKey : String) (pos : Nat × Nat)
  | textDraw (text : String) (pos : Int × Int) (color : String)
  | panelPaste (pos : Nat × Nat)
deriving DecidableEq

/-- The preloaded, read-only asset set of DesktopRenderer: the icon-cache
keys, the alias table, the font metric (text width in pixels) and the
optional loading panel with its anchor. -/
structure RenderAssets where
  iconCache : List String
  aliases : String → Option String
  textWidth : String → Nat
  hasFont : Bool
  loadingPos : Option (Nat × Nat)

/-- The _ICON_ALIASES table from renderer.py. -/
def iconAliases : String → Option String
  | "open_dental" => some ("od")
  | "google_chrome" => some ("chrome")
  | "microsoft_edge" => some ("edge")
  | "recycle_bin" => some ("trash")
  | "acrobat_reader" => some ("acrobat")
  | "od_zapata" => some ("od")
  | "office_shsre" => some ("office")
  | "brother_iprint" => some ("brother")
  | "brother_utilities" => some ("brother")
  | "brother_creative" => some ("brother")
  | "pms_dental" => some ("pms")
  | "file_explorer" => some ("explorer")
  | _ => none

/-- _resolve_icon_key from renderer.py: try the direct region-qualified
key, then the alias table, else give up. -/
def resolveIconKey (cache : List String) (aliases : String → Option String)
    (region : String) (iconId : String) : Option String :=
  let cacheKey := region ++ "_" ++ iconId
  if cache.contains cacheKey then some cacheKey
  else
    match aliases iconId with
    | some a =>
      let aliasKey := region ++ "_" ++ a
      if cache.contains aliasKey then some aliasKey else none
    | none => none

/-- _draw_desktop_icon from renderer.py: paste the resolved bitmap, then
draw the label beneath it with a one-pixel shadow pass; an unresolved icon
contributes nothing. -/
def drawDesktopIcon (assets : RenderAssets) (icon : IconPlacement) : List DrawOp :=
  match resolveIconKey assets.iconCache assets.aliases ("desktop") icon.iconId with
  | none => []
  | some key =>
    let pasteOps := [DrawOp.pasteIcon key (icon.x, icon.y)]
    if icon.label ≠ "" ∧ assets.hasFont then
      let tw := assets.textWidth icon.label
      let tx : Int := (icon.x : Int) + ((icon.width : Int) - (tw : Int)) / 2
      let ty : Int := (icon.y : Int) + (icon.height : Int) + 2
      pasteOps ++
        [DrawOp.textDraw icon.label (tx + 1, ty + 1) ("black"),
         DrawOp.textDraw icon.label (tx, ty) ("white")]
    else pasteOps

/-- _draw_taskbar_icon from renderer.py: paste only, no label. -/
def drawTaskbarIcon (assets : RenderAssets) (icon : IconPlacement) : List DrawOp :=
  match resolveIconKey assets.iconCache assets.aliases ("taskbar") icon.iconId with
  | none => []
  | some key => [DrawOp.pasteIcon key (icon.x, icon.y)]

/-- Python str.split("\n") on character lists, structurally. -/
def splitLinesAux : List Char → List (List Char)
  | [] => [[]]
  | c :: rest =>
    if c = '\n' then [] :: splitLinesAux rest
    else
      match splitLinesAux rest with
      | [] => [[c]]
      | line :: more => (c :: line) :: more

/-- Python str.split("\n") on strings, as used by _draw_datetime. -/
def splitLines (s : String) : List String :=
  (splitLinesAux s.data).map String.mk

/-- The per-line loop of _draw_datetime. -/
def datetimeLines (assets : RenderAssets) (x y : Nat) :
    Nat → List String → List DrawOp
  | _, [] => []
  | i, line :: rest =>
    let lineY : Int := (y : Int) + i * (DATETIME_FONT_SIZE + 2)
    let tx : Int := (x : Int) - (assets.textWidth line / 2 : Nat)
    DrawOp.textDraw line (tx, lineY) ("black") ::
      datetimeLines assets x y (i + 1) rest

/-- _draw_datetime from renderer.py. -/
def drawDatetime (assets : RenderAssets) (s : DesktopState) : List DrawOp :=
  if s.datetimeText = "" ∨ assets.hasFont = false then []
  else
    datetimeLines assets s.datetimePosition.1 s.datetimePosition.2 0
      (splitLines s.datetimeText)

/-- _draw_loading_panel from renderer.py: paste the panel at its anchor
when one was loaded. -/
def loadingOps (assets : RenderAssets) : List DrawOp :=
  match assets.loadingPos with
  | none => []
  | some pos => [DrawOp.panelPaste pos]

/-- DesktopRenderer.render from renderer.py: desktop icons, then taskbar
icons, then the datetime, then conditionally the loading panel; alongside
the draw plan it emits the metadata ground truth, a pure projection of the
input state. -/
def render (assets : RenderAssets) (s : DesktopState) :
    List DrawOp × GroundTruth :=
  ((s.desktopIcons.flatMap (drawDesktopIcon assets)) ++
    (s.taskbarIcons.flatMap (drawTaskbarIcon assets)) ++
    drawDatetime assets s ++
    (if s.odLoadingVisible then loadingOps assets else []),
   s.toGroundTruth)

/-- The structured action attached to a sample. -/
inductive ToolCall where
  | click (action : String) (coordinate : Int × Int)
  | waitFor (duration : Rat)
deriving DecidableEq, Inhabited

/-- Modelled from the spec: make_tool_call comes from
cudag.core.iconlist_task, which is not part of this repository's sources.
Per the spec (section 4.3, task expansion) it builds the structured action
from the template's verb and the given pixel coordinate. -/
def makeToolCall (action : String) (coord : Int × Int) : ToolCall :=
  ToolCall.click action coord

/-- Replacement of every non-overlapping occurrence of a non-empty
pattern, left to right, on character lists: the semantics of Python's
str.replace.  The fuel argument (instantiated with the subject's length)
only makes the recursion structural. -/
def replaceAux (pat rep : List Char) : Nat → List Char → List Char
  | 0, s => s
  | _ + 1, [] => []
  | fuel + 1, c :: rest =>
    if pat ≠ [] ∧ (c :: rest).take pat.length = pat then
      rep ++ replaceAux pat rep fuel ((c :: rest).drop pat.length)
    else
      c :: replaceAux pat rep fuel rest

/-- Python str.replace on strings. -/
def replaceAll (s pat rep : String) : String :=
  String.mk (replaceAux pat.data rep.data s.data.length s.data)

/-- Prompt interpolation used by the iconlist and wait emitters:
prompt_template.replace with the icon's label. -/
def promptOf (template label : String) : String :=
  replaceAll template ("[icon_label]") label

/-- The fields of a TaskSample that the iconlist emitter fills in
(tolerance and crop region are carried in the sample's metadata). -/
structure IconSample where
  sampleSuffix : String
  humanPrompt : String
  toolCall : ToolCall
  pixelCoords : Int × Int
  iconId : String
  iconLabel : String
  iconBounds : Nat × Nat × Nat × Nat
  cropRegion : Nat × Nat × Nat × Nat
  tolerance : Nat × Nat
  imageSize : Nat × Nat
deriving DecidableEq, Inhabited

/-- IconListTask.generate_samples from tasks/iconlist_task.py: generate a
state with a random desktop count and no taskbar icons, crop to the
desktop element's bbox, and emit one sample per (matching task, desktop
icon) pair with crop-relative pixel coordinates.  The emitted image is the
crop of the rendered frame, so its size equals the bbox extent. -/
def generateSamplesIconList (cfg : AnnConfig) (r : Rng) : List IconSample :=
  match getElementByLabel cfg ("desktop") with
  | none => []
  | some desktopElement =>
    let (numDesktop, r1) := rrandint r 3 7
    let state := (DesktopState.generate cfg r1 numDesktop 0 false).1
    let bbox := desktopElement.bbox
    let cropX := bbox.1
    let cropY := bbox.2.1
    let tol := (desktopElement.toleranceX, desktopElement.toleranceY)
    cfg.tasks.flatMap (fun task =>
      if task.action = "wait" ∨ task.action = "grounding" then []
      else
        match getElement cfg task.targetElementId with
        | none => []
        | some el =>
          if el.label = "desktop" then
            state.desktopIcons.map (fun icon =>
              let label := labelOrId cfg.desktopIcons icon.iconId
              let relX : Int := (icon.center.1 : Int) - (cropX : Int)
              let relY : Int := (icon.center.2 : Int) - (cropY : Int)
              { sampleSuffix := "_desktop_" ++ icon.iconId
                humanPrompt := promptOf task.promptTemplate label
                toolCall := makeToolCall task.action (relX, relY)
                pixelCoords := (relX, relY)
                iconId := icon.iconId
                iconLabel := label
                iconBounds := icon.bounds
                cropRegion := bbox
                tolerance := tol
                imageSize := (bbox.2.2.1, bbox.2.2.2) })
          else [])

/-- The fields of a wait-loading TaskSample, including the per-sample
ground truth of crop-relative icon centres. -/
structure WaitSample where
  sampleSuffix : String
  humanPrompt : String
  toolCall : ToolCall
  pixelCoords : Int × Int
  iconId : String
  iconLabel : String
  waitSeconds : Rat
  cropRegion : Nat × Nat × Nat × Nat
  tolerance : Nat × Nat
  gtIcons : List (String × String × (Int × Int))
  imageSize : Nat × Nat
deriving DecidableEq, Inhabited

/-- The click task whose prompt templates the wait emitter reuses: the
first double_click task targeting the desktop element. -/
def waitClickTask (cfg : AnnConfig) : Option AnnTask :=
  cfg.tasks.find? (fun t =>
    t.action == "double_click" &&
      (match getElement cfg t.targetElementId with
       | some el => el.label == "desktop"
       | none => false))

/-- The state WaitLoadingTask.generate_samples builds internally: a random
desktop count, no taskbar icons, loading panel visible. -/
def waitLoadingState (cfg : AnnConfig) (r : Rng) : DesktopState :=
  let (numDesktop, r1) := rrandint r 3 7
  (DesktopState.generate cfg r1 numDesktop 0 true).1

/-- WaitLoadingTask.generate_samples from tasks/wait_loading.py: when the
config carries a wait task, a desktop element and a desktop double-click
task, emit one sample per desktop icon with a click-style prompt, a wait
action of the configured duration (3.0 when the configured wait_time is
not positive) and zero tolerance. -/
def generateWaitSamples (cfg : AnnConfig) (r : Rng) : List WaitSample :=
  match cfg.waitTask with
  | none => []
  | some wt =>
    let waitTime : Rat := if wt.waitTime > 0 then wt.waitTime else 3
    match getElementByLabel cfg ("desktop") with
    | none => []
    | some desktopElement =>
      match waitClickTask cfg with
      | none => []
      | some clickTask =>
        let state := waitLoadingState cfg r
        let bbox := desktopElement.bbox
        let cropX := bbox.1
        let cropY := bbox.2.1
        let gt := state.desktopIcons.map (fun i =>
          (i.iconId, labelOrId cfg.desktopIcons i.iconId,
            ((i.center.1 : Int) - (cropX : Int),
             (i.center.2 : Int) - (cropY : Int))))
        state.desktopIcons.map (fun icon =>
          let label := labelOrId cfg.desktopIcons icon.iconId
          { sampleSuffix := "_wait_" ++ icon.iconId
            humanPrompt := promptOf clickTask.promptTemplate label
            toolCall := ToolCall.waitFor waitTime
            pixelCoords := (0, 0)
            iconId := icon.iconId
            iconLabel := label
            waitSeconds := waitTime
            cropRegion := bbox
            tolerance := (0, 0)
            gtIcons := gt
            imageSize := (bbox.2.2.1, bbox.2.2.2) })

/-- One sample of api.py's public emitters (the fields the wait path
fills). -/
structure ApiSample where
  taskType : String
  humanPrompt : String
  actionName : String
  actionKind : String
  waitDuration : Option Rat
  coordinate : Option (Nat × Nat)
  pixelCoords : Int × Int
  tolerance : Rat × Rat
  iconId : String
deriving DecidableEq, Inhabited

/-- _generate_wait_samples from api.py: for every non-wait task targeting
an iconlist element, one sample per icon of that region with a wait action
of the configured duration and zero tolerance. -/
def apiGenerateWaitSamples (cfg : AnnConfig) (state : DesktopState) :
    List ApiSample :=
  match cfg.waitTask with
  | none => []
  | some wt =>
    let waitTime : Rat := if wt.waitTime > 0 then wt.waitTime else 3
    cfg.tasks.flatMap (fun task =>
      if task.action = "wait" then []
      else
        match getElement cfg task.targetElementId with
        | none => []
        | some el =>
          if el.elementType ≠ "iconlist" then []
          else
            let pick :=
              if el.label = "desktop" then
                some (state.desktopIcons, cfg.desktopIcons)
              else if el.label = "taskbar" then
                some (state.taskbarIcons, cfg.taskbarIcons)
              else none
            match pick with
            | none => []
            | some (ics, info) =>
              ics.map (fun icon =>
                { taskType := wt.taskType
                  humanPrompt := promptOf task.promptTemplate
                    (labelOrId info icon.iconId)
                  actionName := "computer_use"
                  actionKind := "wait"
                  waitDuration := some waitTime
                  coordinate := none
                  pixelCoords := (0, 0)
                  tolerance := (0, 0)
                  iconId := icon.iconId }))

/-- The pixel to normalized-unit conversion of api.py:
int((coord / dim) * 1000).  For the coordinate and dimension ranges used
by this program (coordinates below the dimension, dimensions 1032..1920)
the double-precision computation agrees with the exact floor embedded
here. -/
def toRU (coord : Nat) (dim : Nat) : Nat := coord * 1000 / dim

/-- Modelled from the spec: bbox_to_ru comes from
cudag.core.grounding_task, which is not part of this repository's sources.
Spec section 4.3 step 3 prescribes floor(coord / frame_dimension * 1000)
per axis against the emitted image's width and height, and the grounding
code comments plus spec section 6 fix the four-integer corner form
[x1, y1, x2, y2] for bbox_2d. -/
def bboxToRU (bbox : Nat × Nat × Nat × Nat) (size : Nat × Nat) :
    Nat × Nat × Nat × Nat :=
  (toRU bbox.1 size.1, toRU bbox.2.1 size.2,
   toRU (bbox.1 + bbox.2.2.1) size.1, toRU (bbox.2.1 + bbox.2.2.2) size.2)

/-- get_all_groundable_elements from screen.py: every labelled element
with its bbox.  The generator renders at the annotation's native size, so
scale_bbox is the identity there. -/
def getAllGroundableElements (cfg : AnnConfig) :
    List (String × (Nat × Nat × Nat × Nat)) :=
  cfg.elements.filterMap (fun e =>
    if e.label = "" then none else some (e.label, e.bbox))

/-- The grounding prompt templates from tasks/grounding_task.py. -/
def GROUNDING_PROMPT_TEMPLATES : List String :=
  ["Locate the {element}",
   "Find the bounding box of the {element}",
   "Where is the {element}?",
   "Identify the {element} region"]

/-- A grounding sample's fields. -/
structure GroundingSample where
  humanPrompt : String
  bboxRU : Nat × Nat × Nat × Nat
  pixelCoords : Nat × Nat
  elementLabel : String
  bboxPixels : Nat × Nat × Nat × Nat
  imageSize : Nat × Nat
deriving DecidableEq, Inhabited

/-- GroundingTask.generate_sample from tasks/grounding_task.py: generate
and render a state, choose one groundable element and one prompt template,
and emit a bounding-box sample whose bbox is normalized against the full
rendered frame (imageSize is the base image's size, 1920 x 1080 per the
screen Meta). -/
def generateGroundingSample
    (groundables : List (String × (Nat × Nat × Nat × Nat)))
    (cfg : AnnConfig) (r : Rng) (imageSize : Nat × Nat) : GroundingSample :=
  let r1 := (DesktopState.generate cfg r 5 3 false).2
  let (el, r2) := rchoice r1 groundables
  let bboxRU := bboxToRU el.2 imageSize
  let (tmpl, _) := rchoice r2 GROUNDING_PROMPT_TEMPLATES
  let prompt := replaceAll tmpl ("{element}") el.1
  let centerX := el.2.1 + el.2.2.2.1 / 2
  let centerY := el.2.2.1 + el.2.2.2.2 / 2
  { humanPrompt := prompt
    bboxRU := bboxRU
    pixelCoords := (centerX, centerY)
    elementLabel := el.1
    bboxPixels := el.2
    imageSize := imageSize }

/-! Basic facts about the random-source primitives. -/

theorem rrandint_fst (r : Rng) (lo hi : Nat) :
    (rrandint r lo hi).1 = lo + r.stream r.pos % (hi + 1 - lo) := rfl

theorem rrandint_bounds (r : Rng) (lo hi : Nat) (h : lo ≤ hi) :
    lo ≤ (rrandint r lo hi).1 ∧ (rrandint r lo hi).1 ≤ hi := by
  rw [rrandint_fst]
  have hpos : 0 < hi + 1 - lo := by omega
  have := Nat.mod_lt (r.stream r.pos) hpos
  omega

theorem sampleAux_getD {α : Type} [Inhabited α] (x : α) (xs : List α)
    (i : Nat) (hlt : i < (x :: xs).length) :
    (x :: xs).getD i default = (x :: xs)[i] := by
  rw [List.getD_eq_getElem?_getD, List.getElem?_eq_getElem hlt, Option.getD_some]

theorem sampleAux_length {α : Type} [Inhabited α] :
    ∀ (k : Nat) (r : Rng) (l : List α),
      (sampleAux k r l).1.length = min k l.length
  | 0, _, l => by simp [sampleAux]
  | _ + 1, _, [] => by simp [sampleAux]
  | k + 1, r, x :: xs => by
    have ih := sampleAux_length k ⟨r.stream, r.pos + 1⟩
      ((x :: xs).eraseIdx (r.stream r.pos % (x :: xs).length))
    simp only [sampleAux, Rng.next]
    have hlt : r.stream r.pos % (x :: xs).length < (x :: xs).length :=
      Nat.mod_lt _ (by simp)
    have hlen := List.length_eraseIdx_add_one hlt
    simp only [List.length_cons] at hlen ih ⊢
    omega

theorem sampleAux_subset {α : Type} [Inhabited α] :
    ∀ (k : Nat) (r : Rng) (l : List α) (a : α),
      a ∈ (sampleAux k r l).1 → a ∈ l
  | 0, _, _, _ => by simp [sampleAux]
  | _ + 1, _, [], _ => by simp [sampleAux]
  | k + 1, r, x :: xs, a => by
    simp only [sampleAux, Rng.next]
    have hlt : r.stream r.pos % (x :: xs).length < (x :: xs).length :=
      Nat.mod_lt _ (by simp)
    intro h
    rcases List.mem_cons.mp h with h1 | h1
    · rw [h1, sampleAux_getD _ _ _ hlt]
      exact List.getElem_mem hlt
    · have := sampleAux_subset k ⟨r.stream, r.pos + 1⟩
        ((x :: xs).eraseIdx (r.stream r.pos % (x :: xs).length)) a h1
      exact (List.eraseIdx_sublist _ _).mem this

theorem sampleAux_perm {α : Type} [Inhabited α] [DecidableEq α] :
    ∀ (k : Nat) (r : Rng) (l : List α), l.length ≤ k →
      List.Perm (sampleAux k r l).1 l
  | 0, _, l, h => by
    have : l = [] := List.length_eq_zero.mp (Nat.le_zero.mp h)
    subst this; simp [sampleAux]
  | _ + 1, _, [], _ => by simp [sampleAux]
  | k + 1, r, x :: xs, h => by
    simp only [sampleAux, Rng.next]
    have hlt : r.stream r.pos % (x :: xs).length < (x :: xs).length :=
      Nat.mod_lt _ (by simp)
    have hlen := List.length_eraseIdx_add_one hlt
    have ih := sampleAux_perm k ⟨r.stream, r.pos + 1⟩
      ((x :: xs).eraseIdx (r.stream r.pos % (x :: xs).length))
      (by simp only [List.length_cons] at hlen h ⊢; omega)
    have hl : List.Perm (x :: xs)
        ((x :: xs)[r.stream r.pos % (x :: xs).length] ::
          (x :: xs).eraseIdx (r.stream r.pos % (x :: xs).length)) :=
      (List.perm_cons_erase (List.getElem_mem hlt)).trans
        ((List.erase_getElem hlt).cons _)
    rw [sampleAux_getD _ _ _ hlt]
    exact ((ih.cons _).trans hl.symm)

theorem sampleAux_nodup {α : Type} [Inhabited α] [DecidableEq α] :
    ∀ (k : Nat) (r : Rng) (l : List α), l.Nodup →
      (sampleAux k r l).1.Nodup
  | 0, _, _, _ => by simp [sampleAux]
  | _ + 1, _, [], _ => by simp [sampleAux]
  | k + 1, r, x :: xs, hnd => by
    simp only [sampleAux, Rng.next]
    have hlt : r.stream r.pos % (x :: xs).length < (x :: xs).length :=
      Nat.mod_lt _ (by simp)
    have hl : List.Perm (x :: xs)
        ((x :: xs)[r.stream r.pos % (x :: xs).length] ::
          (x :: xs).eraseIdx (r.stream r.pos % (x :: xs).length)) :=
      (List.perm_cons_erase (List.getElem_mem hlt)).trans
        ((List.erase_getElem hlt).cons _)
    have hnd' := hl.nodup hnd
    rw [List.nodup_cons] at hnd'
    have ih := sampleAux_nodup k ⟨r.stream, r.pos + 1⟩
      ((x :: xs).eraseIdx (r.stream r.pos % (x :: xs).length)) hnd'.2
    rw [sampleAux_getD _ _ _ hlt, List.nodup_cons]
    refine ⟨fun hmem => hnd'.1 ?_, ih⟩
    exact sampleAux_subset _ _ _ _ hmem

theorem rshuffle_perm {α : Type} [Inhabited α] [DecidableEq α]
    (r : Rng) (l : List α) : List.Perm (rshuffle r l).1 l :=
  sampleAux_perm _ _ _ le_rfl

/-! Facts about the icon-subset selection and the layout strategies. -/

theorem requiredOf_nodup (icons : Catalog)
    (hnd : (icons.map (fun kv => kv.1)).Nodup) : (requiredOf icons).Nodup := by
  have hsub : List.Sublist
      ((icons.filter (fun kv => kv.2.required)).map (fun kv => kv.1))
      (icons.map (fun kv => kv.1)) :=
    (List.filter_sublist icons).map (fun kv => kv.1)
  exact hnd.sublist hsub

theorem not_mem_optionalOf (icons : Catalog) (id : String)
    (h : id ∈ requiredOf icons) : id ∉ optionalOf icons := by
  intro hmem
  have h2 := (List.mem_filter.mp hmem).2
  have h3 : id ∉ requiredOf icons := by simpa using h2
  exact h3 h

theorem rsample_subset {α : Type} [Inhabited α] (r : Rng) (l : List α) (k : Nat)
    (a : α) (h : a ∈ (rsample r l k).1) : a ∈ l :=
  sampleAux_subset k r l a h

theorem rsample_length {α : Type} [Inhabited α] (r : Rng) (l : List α) (k : Nat) :
    (rsample r l k).1.length = min k l.length :=
  sampleAux_length k r l

theorem selectIds_count_one (varyN : Bool) (pctNum : Nat) (icons : Catalog)
    (hint : Nat) (r : Rng) (id : String)
    (hnd : (icons.map (fun kv => kv.1)).Nodup)
    (hreq : id ∈ requiredOf icons) :
    ((selectIds varyN pctNum icons hint r).1).count id = 1 := by
  have h1 : (requiredOf icons).count id = 1 :=
    List.count_eq_one_of_mem (requiredOf_nodup icons hnd) hreq
  have hopt : id ∉ optionalOf icons := not_mem_optionalOf icons id hreq
  unfold selectIds
  split
  · rcases hk : rrandint r (pctNum * (optionalOf icons).length / 5)
      (optionalOf icons).length with ⟨k, r1⟩
    rcases hsel : rsample r1 (optionalOf icons) k with ⟨sel, r2⟩
    have hz : sel.count id = 0 := by
      refine List.count_eq_zero.mpr fun hmem => hopt ?_
      have := rsample_subset r1 (optionalOf icons) k id
      rw [hsel] at this
      exact this hmem
    simp only [hk, hsel, List.count_append]
    omega
  · have hz : ((optionalOf icons).take (hint - (requiredOf icons).length)).count
        id = 0 := by
      refine List.count_eq_zero.mpr fun hmem => hopt ?_
      exact (List.take_sublist _ _).mem hmem
    simp only [List.count_append]
    omega

theorem selectIds_length_le (varyN : Bool) (pctNum : Nat) (icons : Catalog)
    (hint : Nat) (r : Rng) :
    ((selectIds varyN pctNum icons hint r).1).length ≤
      (requiredOf icons).length + (optionalOf icons).length := by
  unfold selectIds
  split
  · rcases hk : rrandint r (pctNum * (optionalOf icons).length / 5)
      (optionalOf icons).length with ⟨k, r1⟩
    rcases hsel : rsample r1 (optionalOf icons) k with ⟨sel, r2⟩
    have := rsample_length r1 (optionalOf icons) k
    rw [hsel] at this
    simp only [hk, hsel, List.length_append]
    simp at this
    omega
  · have := List.length_take (hint - (requiredOf icons).length)
      (optionalOf icons)
    simp only [List.length_append]
    omega

theorem desktopSelection_count_one (cfg : AnnConfig) (r : Rng) (n : Nat)
    (id : String) (hnd : (cfg.desktopIcons.map (fun kv => kv.1)).Nodup)
    (hreq : id ∈ requiredOf cfg.desktopIcons) :
    ((desktopSelection cfg r n).1).count id = 1 := by
  rcases h1 : selectIds (elVaryN (getElementByLabel cfg ("desktop"))) 3
      cfg.desktopIcons n r with ⟨ids, r1⟩
  have hc := selectIds_count_one (elVaryN (getElementByLabel cfg ("desktop"))) 3
    cfg.desktopIcons n r id hnd hreq
  rw [h1] at hc
  simp only [desktopSelection, h1]
  split
  · simpa using ((rshuffle_perm r1 ids).count_eq id).trans (by simpa using hc)
  · simpa using hc

theorem desktopSelection_length_le (cfg : AnnConfig) (r : Rng) (n : Nat) :
    ((desktopSelection cfg r n).1).length ≤
      (requiredOf cfg.desktopIcons).length +
        (optionalOf cfg.desktopIcons).length := by
  rcases h1 : selectIds (elVaryN (getElementByLabel cfg ("desktop"))) 3
      cfg.desktopIcons n r with ⟨ids, r1⟩
  have hl := selectIds_length_le (elVaryN (getElementByLabel cfg ("desktop"))) 3
    cfg.desktopIcons n r
  rw [h1] at hl
  simp only [desktopSelection, h1]
  split
  · simpa using ((rshuffle_perm r1 ids).length_eq).trans_le (by simpa using hl)
  · simpa using hl

theorem stackedFrom_map (iconW iconH : Nat) (icons : Catalog) :
    ∀ (i : Nat) (ids : List String),
      (stackedFrom iconW iconH icons i ids).map (fun p => p.iconId) = ids
  | _, [] => rfl
  | i, id :: rest => by
    simp [stackedFrom, stackedFrom_map iconW iconH icons (i + 1) rest]

theorem randomPlaceAux_map (iconW iconH : Nat) (icons : Catalog) :
    ∀ (ids : List String) (used : List (Nat × Nat)) (r : Rng),
      ((randomPlaceAux iconW iconH icons ids used r).1).map (fun p => p.iconId) =
        ids
  | [], _, _ => rfl
  | id :: rest, used, r => by
    rcases h1 : tryPosition iconW iconH used 50 r with ⟨p, r1⟩
    rcases h2 : randomPlaceAux iconW iconH icons rest (used ++ [p]) r1
      with ⟨ps, r2⟩
    have ih := randomPlaceAux_map iconW iconH icons rest (used ++ [p]) r1
    rw [h2] at ih
    simp [randomPlaceAux, h1, h2, ih]

theorem taskbarFrom_map :
    ∀ (x : Nat) (ids : List String),
      (taskbarFrom x ids).map (fun p => p.iconId) = ids
  | _, [] => rfl
  | x, id :: rest => by
    simp [taskbarFrom, taskbarFrom_map (x + 27 + TASKBAR_ICON_GAP) rest]

theorem zipWith_sparseMk_map (iconW iconH : Nat) (icons : Catalog) :
    ∀ (cells : List (Nat × Nat)) (ids : List String),
      (List.zipWith (sparseMk iconW iconH icons) cells ids).map
          (fun p => p.iconId) = ids.take cells.length
  | [], ids => by simp
  | _ :: _, [] => by simp
  | c :: cs, id :: rest => by
    simp [sparseMk, zipWith_sparseMk_map iconW iconH icons cs rest]

theorem sparseCells_length : sparseCells.length = 48 := by decide

theorem sparsePlace_parts (iconW iconH : Nat) (icons : Catalog)
    (ids : List String) (r : Rng) :
    (sparsePlace iconW iconH icons ids r).1 =
      List.zipWith (sparseMk iconW iconH icons)
        (List.insertionSort cellLe (((rshuffle r sparseCells).1).take ids.length))
        ids := by
  unfold sparsePlace
  rcases h1 : rshuffle r sparseCells with ⟨shuffled, r1⟩
  simp [h1]

theorem sortedCells_length (ids : List String) (r : Rng) :
    (List.insertionSort cellLe
        (((rshuffle r sparseCells).1).take ids.length)).length =
      min ids.length 48 := by
  rw [List.length_insertionSort, List.length_take]
  have : ((rshuffle r sparseCells).1).length = 48 := by
    have := rsample_length r sparseCells sparseCells.length
    simp only [rshuffle, rsample] at this ⊢
    rw [this, sparseCells_length]
    simp
  rw [this]

theorem sparsePlace_map (iconW iconH : Nat) (icons : Catalog)
    (ids : List String) (r : Rng) (h48 : ids.length ≤ 48) :
    ((sparsePlace iconW iconH icons ids r).1).map (fun p => p.iconId) = ids := by
  rw [sparsePlace_parts, zipWith_sparseMk_map, sortedCells_length]
  have : min ids.length 48 = ids.length := by omega
  rw [this, List.take_length]

theorem sparsePlace_length (iconW iconH : Nat) (icons : Catalog)
    (ids : List String) (r : Rng) :
    ((sparsePlace iconW iconH icons ids r).1).length = min ids.length 48 := by
  rw [sparsePlace_parts, List.length_zipWith, sortedCells_length]
  omega

theorem stackedFrom_length (iconW iconH : Nat) (icons : Catalog) (i : Nat)
    (ids : List String) :
    (stackedFrom iconW iconH icons i ids).length = ids.length := by
  have := congrArg List.length (stackedFrom_map iconW iconH icons i ids)
  simpa using this

theorem randomPlaceAux_length (iconW iconH : Nat) (icons : Catalog)
    (ids : List String) (used : List (Nat × Nat)) (r : Rng) :
    ((randomPlaceAux iconW iconH icons ids used r).1).length = ids.length := by
  have := congrArg List.length (randomPlaceAux_map iconW iconH icons ids used r)
  simpa using this

theorem placeDesktopIcons_count_one (cfg : AnnConfig) (r : Rng) (n : Nat)
    (id : String) (hnd : (cfg.desktopIcons.map (fun kv => kv.1)).Nodup)
    (hreq : id ∈ requiredOf cfg.desktopIcons)
    (h48 : (requiredOf cfg.desktopIcons).length +
      (optionalOf cfg.desktopIcons).length ≤ 48) :
    (((placeDesktopIcons cfg r n).1).map (fun p => p.iconId)).count id = 1 := by
  have hc := desktopSelection_count_one cfg r n id hnd hreq
  have hl := (desktopSelection_length_le cfg r n).trans h48
  unfold placeDesktopIcons
  rcases h2 : desktopStyle cfg r n with ⟨style, r2⟩
  simp only [h2]
  split
  · rw [stackedFrom_map]
    exact hc
  · split
    · rw [sparsePlace_map _ _ _ _ _ hl]
      exact hc
    · rw [randomPlaceAux_map]
      exact hc

theorem placeTaskbarIcons_count_one (cfg : AnnConfig) (r : Rng) (n : Nat)
    (id : String) (hnd : (cfg.taskbarIcons.map (fun kv => kv.1)).Nodup)
    (hreq : id ∈ requiredOf cfg.taskbarIcons) :
    (((placeTaskbarIcons cfg r n).1).map (fun p => p.iconId)).count id = 1 := by
  rcases h1 : selectIds (elVaryN (getElementByLabel cfg ("taskbar"))) 2
      cfg.taskbarIcons n r with ⟨sel, r1⟩
  have hc := selectIds_count_one (elVaryN (getElementByLabel cfg ("taskbar"))) 2
    cfg.taskbarIcons n r id hnd hreq
  rw [h1] at hc
  simp only [placeTaskbarIcons, h1]
  split
  · rw [taskbarFrom_map]
    simpa using ((rshuffle_perm r1 sel).count_eq id).trans (by simpa using hc)
  · rw [taskbarFrom_map]
    simpa using hc

theorem generate_desktopIcons (cfg : AnnConfig) (r : Rng) (nD nT : Nat)
    (f : Bool) :
    ((DesktopState.generate cfg r nD nT f).1).desktopIcons =
      (placeDesktopIcons cfg (generateDatetime r).2 nD).1 ∧
    ((DesktopState.generate cfg r nD nT f).1).taskbarIcons =
      (placeTaskbarIcons cfg
        (placeDesktopIcons cfg (generateDatetime r).2 nD).2 nT).1 := by
  rcases h1 : generateDatetime r with ⟨dt, r1⟩
  rcases h2 : placeDesktopIcons cfg r1 nD with ⟨dps, r2⟩
  rcases h3 : placeTaskbarIcons cfg r2 nT with ⟨tps, r3⟩
  simp [DesktopState.generate, h1, h2, h3]

/-! Claim theorems. -/

/-- C9: the ground truth emitted with every rendered scene is the exact
structural mirror of the DesktopState that produced it, entry for entry
and in order (same id, bounds, centre, label, clock text and position,
loading flag); icon-key resolution tries the direct key and then the alias
table, and when both fail the icon is silently skipped in the draw plan
(it contributes no operation and no error) while its ground-truth entry is
still emitted. -/
theorem ground_truth_mirror (assets : RenderAssets) (s : DesktopState) :
    ((render assets s).2 = s.toGroundTruth) ∧
    ((render assets s).2.desktopIcons.length = s.desktopIcons.length ∧
      (render assets s).2.taskbarIcons.length = s.taskbarIcons.length) ∧
    (∀ i (hi : i < s.desktopIcons.length),
      (render assets s).2.desktopIcons[i]? =
        some { id := (s.desktopIcons.get ⟨i, hi⟩).iconId
               label := (s.desktopIcons.get ⟨i, hi⟩).label
               bounds := (s.desktopIcons.get ⟨i, hi⟩).bounds
               center := (s.desktopIcons.get ⟨i, hi⟩).center }) ∧
    (∀ i (hi : i < s.taskbarIcons.length),
      (render assets s).2.taskbarIcons[i]? =
        some { id := (s.taskbarIcons.get ⟨i, hi⟩).iconId
               bounds := (s.taskbarIcons.get ⟨i, hi⟩).bounds
               center := (s.taskbarIcons.get ⟨i, hi⟩).center }) ∧
    ((render assets s).2.datetimeText = s.datetimeText ∧
      (render assets s).2.datetimePosition = s.datetimePosition ∧
      (render assets s).2.odLoadingVisible = s.odLoadingVisible) ∧
    (∀ region id, (region ++ "_" ++ id) ∈ assets.iconCache →
      resolveIconKey assets.iconCache assets.aliases region id =
        some (region ++ "_" ++ id)) ∧
    (∀ region id a, (region ++ "_" ++ id) ∉ assets.iconCache →
      assets.aliases id = some a → (region ++ "_" ++ a) ∈ assets.iconCache →
      resolveIconKey assets.iconCache assets.aliases region id =
        some (region ++ "_" ++ a)) ∧
    (∀ icon : IconPlacement,
      resolveIconKey assets.iconCache assets.aliases ("desktop") icon.iconId =
        none → drawDesktopIcon assets icon = []) ∧
    (∀ icon : IconPlacement,
      resolveIconKey assets.iconCache assets.aliases ("taskbar") icon.iconId =
        none → drawTaskbarIcon assets icon = []) := by
  refine ⟨rfl, ?_, ?_, ?_, ⟨rfl, rfl, rfl⟩, ?_, ?_, ?_, ?_⟩
  · simp [render, DesktopState.toGroundTruth]
  · intro i hi
    simp [render, DesktopState.toGroundTruth, List.getElem?_map,
      List.getElem?_eq_getElem hi]
  · intro i hi
    simp [render, DesktopState.toGroundTruth, List.getElem?_map,
      List.getElem?_eq_getElem hi]
  · intro region id hmem
    simp [resolveIconKey, hmem]
  · intro region id a hnot ha hmem
    simp [resolveIconKey, hnot, ha, hmem]
  · intro icon hnone
    simp [drawDesktopIcon, hnone]
  · intro icon hnone
    simp [drawTaskbarIcon, hnone]

/-- Concrete instance for C9: a state whose only desktop icon has no
resolvable bitmap in an empty icon cache; the theorem applied there shows
the draw plan skips it while the ground truth keeps its entry. -/
def assetsW : RenderAssets :=
  { iconCache := []
    aliases := iconAliases
    textWidth := fun _ => 0
    hasFont := false
    loadingPos := none }

/-- A desktop placement whose id resolves to no bitmap. -/
def ghostIcon : IconPlacement :=
  { iconId := "ghost"
    x := 20
    y := 20
    width := 54
    height := 54
    label := "Ghost" }

/-- Concrete state for the C9 witness. -/
def stateW : DesktopState :=
  { desktopIcons := [ghostIcon]
    taskbarIcons := []
    datetimeText := "1:00 PM\n1/1/2024"
    datetimePosition := (1868, 1043)
    odLoadingVisible := false }

theorem ground_truth_mirror_witness :
    (render assetsW stateW).2 = stateW.toGroundTruth ∧
    drawDesktopIcon assetsW ghostIcon = [] :=
  ⟨(ground_truth_mirror assetsW stateW).1,
    (ground_truth_mirror assetsW stateW).2.2.2.2.2.2.2.1 ghostIcon (by decide)⟩

/-- C3: the whole generate, render, emit chain is a pure function of the
consumed random stream and its declared inputs.  The embedding threads the
random state explicitly and reads only the immutable config and asset set,
so two runs over equal streams and equal inputs produce equal states,
equal draw plans (hence byte-identical rasters over the fixed read-only
assets) and equal sample lists. -/
theorem pipeline_deterministic (cfg cfg2 : AnnConfig) (assets : RenderAssets)
    (g : List (String × (Nat × Nat × Nat × Nat))) (sz : Nat × Nat)
    (r r2 : Rng) (nD nT : Nat) (f : Bool)
    (hr : r = r2) (hc : cfg = cfg2) :
    DesktopState.generate cfg r nD nT f = DesktopState.generate cfg2 r2 nD nT f ∧
    render assets (DesktopState.generate cfg r nD nT f).1 =
      render assets (DesktopState.generate cfg2 r2 nD nT f).1 ∧
    generateSamplesIconList cfg r = generateSamplesIconList cfg2 r2 ∧
    generateWaitSamples cfg r = generateWaitSamples cfg2 r2 ∧
    generateGroundingSample g cfg r sz = generateGroundingSample g cfg2 r2 sz := by
  subst hr; subst hc
  exact ⟨rfl, rfl, rfl, rfl, rfl⟩

/-- Concrete instance of C3 at a fixed stream. -/
def rngW : Rng := ⟨fun _ => 0, 0⟩

theorem pipeline_deterministic_witness :
    DesktopState.generate Inhabited.default rngW 5 3 false =
      DesktopState.generate Inhabited.default rngW 5 3 false ∧
    render assetsW (DesktopState.generate Inhabited.default rngW 5 3 false).1 =
      render assetsW (DesktopState.generate Inhabited.default rngW 5 3 false).1 ∧
    generateSamplesIconList Inhabited.default rngW =
      generateSamplesIconList Inhabited.default rngW ∧
    generateWaitSamples Inhabited.default rngW =
      generateWaitSamples Inhabited.default rngW ∧
    generateGroundingSample [] Inhabited.default rngW (1920, 1080) =
      generateGroundingSample [] Inhabited.default rngW (1920, 1080) :=
  pipeline_deterministic Inhabited.default Inhabited.default assetsW []
    (1920, 1080) rngW rngW 5 3 false rfl rfl

/-- C8: when the loading panel is visible, the wait-task emitters never
produce a click-type sample: every sample of
WaitLoadingTask.generate_samples carries a wait action of the configured
duration (3.0 when the configured wait_time is not positive) with zero
tolerance, and likewise every sample of api._generate_wait_samples. -/
theorem wait_emitters_no_click (cfg : AnnConfig) (wt : WaitTaskDesc)
    (hwt : cfg.waitTask = some wt) :
    (∀ (r : Rng), ∀ s ∈ generateWaitSamples cfg r,
      s.toolCall = ToolCall.waitFor (if 0 < wt.waitTime then wt.waitTime else 3) ∧
      s.waitSeconds = (if 0 < wt.waitTime then wt.waitTime else 3) ∧
      s.tolerance = (0, 0) ∧
      (∀ a c, s.toolCall ≠ ToolCall.click a c)) ∧
    (∀ (st : DesktopState), ∀ s ∈ apiGenerateWaitSamples cfg st,
      s.actionName = "computer_use" ∧
      s.actionKind = "wait" ∧
      s.waitDuration = some (if 0 < wt.waitTime then wt.waitTime else 3) ∧
      s.coordinate = none ∧
      s.tolerance = (0, 0)) := by
  constructor
  · intro r s hs
    simp only [generateWaitSamples, hwt] at hs
    rcases hel : getElementByLabel cfg ("desktop") with _ | el <;>
      rw [hel] at hs
    · simp at hs
    rcases hct : waitClickTask cfg with _ | ct <;> rw [hct] at hs
    · simp at hs
    simp only [List.mem_map] at hs
    obtain ⟨icon, _, rfl⟩ := hs
    refine ⟨rfl, rfl, rfl, ?_⟩
    intro a c h
    exact ToolCall.noConfusion h
  · intro st s hs
    simp only [apiGenerateWaitSamples, hwt, List.mem_flatMap] at hs
    obtain ⟨task, _, hs⟩ := hs
    split at hs
    · simp at hs
    · split at hs
      · simp at hs
      · split at hs
        · simp at hs
        · split at hs
          · simp at hs
          · simp only [List.mem_map] at hs
            obtain ⟨icon, _, rfl⟩ := hs
            exact ⟨rfl, rfl, rfl, rfl, rfl⟩

/-- Concrete config for the C8 witness: a wait task with non-positive
configured wait_time (so the default duration 3.0 applies), one desktop
element, one double-click prompt task and one required icon. -/
def cfgWaitW : AnnConfig :=
  { elements := [{ elementId := 1
                   label := "desktop"
                   elementType := "iconlist"
                   varyN := false
                   randomOrder := false
                   layout := "stacked"
                   bbox := (0, 0, 1914, 1032)
                   toleranceX := 25
                   toleranceY := 35 }]
    tasks := [{ action := "double_click"
                targetElementId := 1
                taskType := "click-desktop-icon"
                promptTemplate := "Open [icon_label]" }]
    waitTask := some { taskType := "wait-loading", waitTime := 0 }
    desktopIcons := [("od", { label := "Open Dental", required := true })]
    taskbarIcons := []
    iconW := 54
    iconH := 54 }

theorem wait_emitters_no_click_witness :
    ((generateWaitSamples cfgWaitW rngW).headI).toolCall = ToolCall.waitFor 3 ∧
    ((generateWaitSamples cfgWaitW rngW).headI).tolerance = (0, 0) := by
  have h := (wait_emitters_no_click cfgWaitW
    { taskType := "wait-loading", waitTime := 0 } rfl).1 rngW
    ((generateWaitSamples cfgWaitW rngW).headI) (by decide)
  exact ⟨h.1, h.2.2.1⟩

/-- C4 counterexample: on a 1920 x 1080 scene the element bbox
(100, 100, 200, 50), converted by the per-axis floor normalization the
pipeline uses, does not equal the value [52, 52, 156, 60] asserted by the
claim (the y entries of that value are not floor(100 * 1000 / 1080) and
floor(150 * 1000 / 1080)). -/
theorem grounding_bbox_cex :
    (generateGroundingSample [("taskbar", (100, 100, 200, 50))] cfgWaitW rngW
        (1920, 1080)).bboxRU ≠ (52, 52, 156, 60) ∧
    bboxToRU (100, 100, 200, 50) (1920, 1080) ≠ (52, 52, 156, 60) := by
  constructor
  · decide
  · decide

/-- C4 amended: the bbox (100, 100, 200, 50) on a 1920 x 1080 scene
normalizes per axis, by floor(coord * 1000 / dimension) against the
emitted image's width for x and height for y, to the corner-form bbox
[52, 92, 156, 138], each entry lying in the range below 1000. -/
theorem grounding_bbox_scenario :
    (generateGroundingSample [("taskbar", (100, 100, 200, 50))] cfgWaitW rngW
        (1920, 1080)).bboxRU = (52, 92, 156, 138) ∧
    bboxToRU (100, 100, 200, 50) (1920, 1080) = (52, 92, 156, 138) ∧
    52 < 1000 ∧ 92 < 1000 ∧ 156 < 1000 ∧ 138 < 1000 := by
  refine ⟨?_, by decide, by decide, by decide, by decide, by decide⟩
  decide

/-- The spec's round-trip recovery: inverse-scale a normalized coordinate
against the emitted image dimension. -/
def invRU (coord dim : Nat) : Nat := toRU coord dim * dim / 1000

theorem div1000_bound (rel W m s : Nat) (h1 : m + s = rel * 1000) (hs : s < W) :
    m / 1000 ≤ rel ∧ rel - m / 1000 ≤ (W + 998) / 1000 := by omega

/-- Quantization bound of the normalize-then-inverse-scale round trip:
the recovery never overshoots and undershoots by at most
floor((dim + 998) / 1000) pixels, which is 1 for emitted dimensions up to
1000 but 2 for the 1914 x 1032 desktop crop. -/
theorem invRU_roundtrip_bound (rel W : Nat) (hW : 0 < W) :
    invRU rel W ≤ rel ∧ rel - invRU rel W ≤ (W + 998) / 1000 := by
  have h1 := Nat.div_add_mod (rel * 1000) W
  rw [Nat.mul_comm W (rel * 1000 / W)] at h1
  have hs : rel * 1000 % W < W := Nat.mod_lt _ hW
  exact div1000_bound rel W (rel * 1000 / W * W) (rel * 1000 % W) h1 hs

/-- C1 amended: for every sample emitted by the cropped iconlist emitter,
the crop-relative pixel coordinate plus the crop region's top-left offset
reproduces the full-frame icon centre exactly, per axis; and the
normalized round trip (floor-normalize against the emitted dimension,
inverse-scale, add the crop offset) reproduces the centre within
floor((dim + 998) / 1000) pixels of undershoot, never overshooting, which
is 2 pixels rather than 1 for the 1914 x 1032 desktop crop. -/
theorem iconlist_crop_roundtrip (cfg : AnnConfig) (r : Rng) (s : IconSample)
    (hs : s ∈ generateSamplesIconList cfg r) :
    (s.pixelCoords.1 + (s.cropRegion.1 : Int) =
        ((s.iconBounds.1 + s.iconBounds.2.2.1 / 2 : Nat) : Int) ∧
      s.pixelCoords.2 + (s.cropRegion.2.1 : Int) =
        ((s.iconBounds.2.1 + s.iconBounds.2.2.2 / 2 : Nat) : Int)) ∧
    (∀ rel dim : Nat, 0 < dim →
      invRU rel dim ≤ rel ∧ rel - invRU rel dim ≤ (dim + 998) / 1000) := by
  refine ⟨?_, fun rel dim hd => invRU_roundtrip_bound rel dim hd⟩
  simp only [generateSamplesIconList] at hs
  split at hs
  · simp at hs
  · simp only [List.mem_flatMap] at hs
    obtain ⟨task, _, hs⟩ := hs
    split at hs
    · simp at hs
    · split at hs
      · simp at hs
      · split at hs
        · simp only [List.mem_map] at hs
          obtain ⟨icon, _, rfl⟩ := hs
          simp only [IconPlacement.center, IconPlacement.bounds]
          constructor <;> omega
        · simp at hs

theorem iconlist_crop_roundtrip_witness :
    ((generateSamplesIconList cfgWaitW rngW).headI.pixelCoords.1 +
        ((generateSamplesIconList cfgWaitW rngW).headI.cropRegion.1 : Int) =
      (((generateSamplesIconList cfgWaitW rngW).headI.iconBounds.1 +
        (generateSamplesIconList cfgWaitW rngW).headI.iconBounds.2.2.1 / 2 : Nat) :
          Int)) ∧
    invRU 47 1914 ≤ 47 ∧ 47 - invRU 47 1914 ≤ (1914 + 998) / 1000 := by
  have h := iconlist_crop_roundtrip cfgWaitW rngW
    ((generateSamplesIconList cfgWaitW rngW).headI) (by decide)
  exact ⟨h.1.1, h.2 47 1914 (by decide)⟩

/-- C1 counterexample: a concrete emitted cropped sample (the stacked
first-column icon of a one-icon catalog, crop (0, 0, 1914, 1032)) whose
crop-relative x coordinate is 47; floor-normalizing 47 against the
emitted width 1914 and inverse-scaling recovers 45, an error of 2 pixels,
so the claimed bound of 1 unit fails. -/
theorem iconlist_crop_roundtrip_cex :
    (generateSamplesIconList cfgWaitW rngW).headI.pixelCoords = (47, 47) ∧
    (generateSamplesIconList cfgWaitW rngW).headI.cropRegion = (0, 0, 1914, 1032) ∧
    (generateSamplesIconList cfgWaitW rngW).headI.imageSize = (1914, 1032) ∧
    toRU 47 1914 = 24 ∧ invRU 47 1914 = 45 ∧ 47 - invRU 47 1914 = 2 := by
  refine ⟨by decide, by decide, by decide, by decide, by decide, by decide⟩

/-- C2 amended: in every generated DesktopState, each required desktop
catalog entry appears exactly once among the desktop placements provided
the catalog's required and optional id lists together hold at most 48 ids
(the sparse strategy's cell budget; beyond it the sparse zip silently
drops surplus ids, see the counterexample), and each required taskbar
entry appears exactly once among the taskbar placements unconditionally. -/
theorem required_exactly_once (cfg : AnnConfig) (r : Rng) (nD nT : Nat)
    (f : Bool) (id : String) (info : IconInfo) :
    ((id, info) ∈ cfg.desktopIcons → info.required = true →
      (cfg.desktopIcons.map (fun kv => kv.1)).Nodup →
      (requiredOf cfg.desktopIcons).length +
        (optionalOf cfg.desktopIcons).length ≤ 48 →
      ((((DesktopState.generate cfg r nD nT f).1).desktopIcons).map
        (fun p => p.iconId)).count id = 1) ∧
    ((id, info) ∈ cfg.taskbarIcons → info.required = true →
      (cfg.taskbarIcons.map (fun kv => kv.1)).Nodup →
      ((((DesktopState.generate cfg r nD nT f).1).taskbarIcons).map
        (fun p => p.iconId)).count id = 1) := by
  constructor
  · intro hmem hreq hnd h48
    have hid : id ∈ requiredOf cfg.desktopIcons :=
      List.mem_map.mpr ⟨(id, info),
        List.mem_filter.mpr ⟨hmem, by simpa using hreq⟩, rfl⟩
    rw [(generate_desktopIcons cfg r nD nT f).1]
    exact placeDesktopIcons_count_one cfg _ nD id hnd hid h48
  · intro hmem hreq hnd
    have hid : id ∈ requiredOf cfg.taskbarIcons :=
      List.mem_map.mpr ⟨(id, info),
        List.mem_filter.mpr ⟨hmem, by simpa using hreq⟩, rfl⟩
    rw [(generate_desktopIcons cfg r nD nT f).2]
    exact placeTaskbarIcons_count_one cfg _ nT id hnd hid

/-- The module-level fallback catalogs of screen.py, with no annotation
elements (all element settings default). -/
def cfgFallback : AnnConfig :=
  { elements := []
    tasks := []
    waitTask := none
    desktopIcons :=
      [("open_dental", { label := "Open Dental", required := true }),
       ("pms", { label := "PMS", required := true }),
       ("chrome", { label := "Chrome", required := false }),
       ("edge", { label := "Edge", required := false })]
    taskbarIcons :=
      [("explorer", { label := "File Explorer", required := false }),
       ("edge", { label := "Microsoft Edge", required := false }),
       ("od", { label := "Open Dental", required := true })]
    iconW := 54
    iconH := 54 }

theorem required_exactly_once_witness :
    ((((DesktopState.generate cfgFallback rngW 5 3 false).1).desktopIcons).map
      (fun p => p.iconId)).count "open_dental" = 1 ∧
    ((((DesktopState.generate cfgFallback rngW 5 3 false).1).taskbarIcons).map
      (fun p => p.iconId)).count "od" = 1 :=
  ⟨(required_exactly_once cfgFallback rngW 5 3 false "open_dental"
      { label := "Open Dental", required := true }).1 (by decide) rfl
      (by decide) (by decide),
    (required_exactly_once cfgFallback rngW 5 3 false "od"
      { label := "Open Dental", required := true }).2 (by decide) rfl
      (by decide)⟩

/-- The id of the n-th icon of the oversized counterexample catalog. -/
def bigIcon (n : Nat) : String := String.mk (List.replicate (n + 1) 'a')

/-- A config whose desktop catalog holds 49 required icons and pins the
sparse layout. -/
def cfgBig : AnnConfig :=
  { elements := [{ elementId := 1
                   label := "desktop"
                   elementType := "iconlist"
                   varyN := false
                   randomOrder := false
                   layout := "sparse"
                   bbox := (0, 0, 1914, 1032)
                   toleranceX := 25
                   toleranceY := 35 }]
    tasks := []
    waitTask := none
    desktopIcons := (List.range 49).map
      (fun n => (bigIcon n, { label := "", required := true }))
    taskbarIcons := []
    iconW := 54
    iconH := 54 }

/-- C2 counterexample: with 49 required desktop icons under the sparse
strategy, the 49th required entry is selected but appears zero times among
the 48 emitted placements, so the required-icon invariant fails as
universally stated. -/
theorem required_exactly_once_cex :
    (bigIcon 48, ({ label := "", required := true } : IconInfo)) ∈
      cfgBig.desktopIcons ∧
    ((((DesktopState.generate cfgBig rngW 5 0 false).1).desktopIcons).map
      (fun p => p.iconId)).count (bigIcon 48) = 0 ∧
    (((DesktopState.generate cfgBig rngW 5 0 false).1).desktopIcons).length =
      48 := by
  refine ⟨by decide, by decide, by decide⟩

/-- C10: the sparse strategy emits exactly min(number of selected ids, 48)
placements (48 being the 6 x 8 candidate cell grid), silently dropping
any surplus ids, while the stacked and random strategies place every
selected id; instantiated at the placement dispatcher, a sparse pick
yields min(selected, 48) desktop placements. -/
theorem sparse_surplus_dropped (iconW iconH : Nat) (icons : Catalog)
    (ids : List String) (used : List (Nat × Nat)) (r : Rng) (i : Nat)
    (cfg : AnnConfig) (r2 : Rng) (n : Nat) :
    ((sparsePlace iconW iconH icons ids r).1).length = min ids.length 48 ∧
    (stackedFrom iconW iconH icons i ids).length = ids.length ∧
    ((randomPlaceAux iconW iconH icons ids used r).1).length = ids.length ∧
    ((desktopStyle cfg r2 n).1 = "sparse" →
      ((placeDesktopIcons cfg r2 n).1).length =
        min ((desktopSelection cfg r2 n).1).length 48) := by
  refine ⟨sparsePlace_length iconW iconH icons ids r,
    stackedFrom_length iconW iconH icons i ids,
    randomPlaceAux_length iconW iconH icons ids used r, ?_⟩
  intro hsty
  unfold placeDesktopIcons
  rcases h2 : desktopStyle cfg r2 n with ⟨style, r3⟩
  rw [h2] at hsty
  simp only at hsty
  subst hsty
  simp only [h2]
  rw [if_neg (by decide), if_pos trivial]
  exact sparsePlace_length cfg.iconW cfg.iconH cfg.desktopIcons
    (desktopSelection cfg r2 n).1 r3

theorem sparse_surplus_dropped_witness :
    ((placeDesktopIcons cfgBig rngW 5).1).length =
      min ((desktopSelection cfgBig rngW 5).1).length 48 ∧
    ((sparsePlace 54 54 [] ["a", "b"] rngW).1).length = min 2 48 :=
  ⟨(sparse_surplus_dropped 54 54 [] ["a", "b"] [] rngW 0 cfgBig rngW 5).2.2.2
      (by decide),
    (sparse_surplus_dropped 54 54 [] ["a", "b"] [] rngW 0 cfgBig rngW 5).1⟩

/-- The k drawn by the vary-subset branch: uniform between
floor(pctNum * optional-count / 5) and the optional count. -/
def varyCount (icons : Catalog) (pctNum : Nat) (r : Rng) : Nat :=
  (rrandint r (pctNum * (optionalOf icons).length / 5)
    (optionalOf icons).length).1

/-- The random state after the k draw of the vary-subset branch. -/
def varyRng (icons : Catalog) (pctNum : Nat) (r : Rng) : Rng :=
  (rrandint r (pctNum * (optionalOf icons).length / 5)
    (optionalOf icons).length).2

/-- The without-replacement sample the vary-subset branch appends. -/
def varySampled (icons : Catalog) (pctNum : Nat) (r : Rng) : List String :=
  (rsample (varyRng icons pctNum r) (optionalOf icons)
    (varyCount icons pctNum r)).1

theorem selectIds_vary_spec (pctNum : Nat) (icons : Catalog) (hint : Nat)
    (r : Rng) (hnd : (optionalOf icons).Nodup) (hp : pctNum ≤ 5) :
    (selectIds true pctNum icons hint r).1 =
      requiredOf icons ++ varySampled icons pctNum r ∧
    pctNum * (optionalOf icons).length / 5 ≤ varyCount icons pctNum r ∧
    varyCount icons pctNum r ≤ (optionalOf icons).length ∧
    (varySampled icons pctNum r).length = varyCount icons pctNum r ∧
    (∀ a ∈ varySampled icons pctNum r, a ∈ optionalOf icons) ∧
    (varySampled icons pctNum r).Nodup := by
  have hlo : pctNum * (optionalOf icons).length / 5 ≤
      (optionalOf icons).length := by
    have h5 : pctNum * (optionalOf icons).length ≤
        5 * (optionalOf icons).length := Nat.mul_le_mul_right _ hp
    omega
  have hb := rrandint_bounds r (pctNum * (optionalOf icons).length / 5)
    (optionalOf icons).length hlo
  constructor
  · unfold selectIds
    rcases hk : rrandint r (pctNum * (optionalOf icons).length / 5)
        (optionalOf icons).length with ⟨k, r1⟩
    rcases hs : rsample r1 (optionalOf icons) k with ⟨sel, r2⟩
    have e1 : varyCount icons pctNum r = k := by unfold varyCount; rw [hk]
    have e2 : varyRng icons pctNum r = r1 := by unfold varyRng; rw [hk]
    have e3 : varySampled icons pctNum r = sel := by
      unfold varySampled
      rw [e1, e2, hs]
    simp [hk, hs, e3]
  refine ⟨hb.1, hb.2, ?_, ?_, ?_⟩
  · have hmin := rsample_length (varyRng icons pctNum r) (optionalOf icons)
      (varyCount icons pctNum r)
    have hvc : varyCount icons pctNum r =
        (rrandint r (pctNum * (optionalOf icons).length / 5)
          (optionalOf icons).length).1 := rfl
    unfold varySampled
    rw [hmin]
    omega
  · exact fun a ha => rsample_subset _ _ _ a ha
  · exact sampleAux_nodup _ _ _ hnd

theorem selectIds_novary_spec (pctNum : Nat) (icons : Catalog) (hint : Nat)
    (r : Rng) :
    (selectIds false pctNum icons hint r).1 =
      requiredOf icons ++
        (optionalOf icons).take (hint - (requiredOf icons).length) := by
  simp [selectIds]

/-- C5: the icon-subset selection of each region.  With vary-subset
disabled the selection is the required ids followed by the first
max(0, hint - number of required) optional ids.  With vary-subset enabled
the selection is the required ids plus a without-replacement random sample
of k optional ids, k drawn uniformly between the lower percentage bound
and the optional count; the placement code instantiates the bound
numerator at 3/5 (60 percent) for the desktop region and 2/5 (40 percent)
for the taskbar region. -/
theorem subset_selection_modes (cfg : AnnConfig) (hint : Nat) (r : Rng)
    (hndD : (optionalOf cfg.desktopIcons).Nodup)
    (hndT : (optionalOf cfg.taskbarIcons).Nodup) :
    (elVaryN (getElementByLabel cfg ("desktop")) = false →
      (selectIds (elVaryN (getElementByLabel cfg ("desktop"))) 3
          cfg.desktopIcons hint r).1 =
        requiredOf cfg.desktopIcons ++
          (optionalOf cfg.desktopIcons).take
            (hint - (requiredOf cfg.desktopIcons).length)) ∧
    (elVaryN (getElementByLabel cfg ("desktop")) = true →
      (selectIds (elVaryN (getElementByLabel cfg ("desktop"))) 3
          cfg.desktopIcons hint r).1 =
        requiredOf cfg.desktopIcons ++ varySampled cfg.desktopIcons 3 r ∧
      3 * (optionalOf cfg.desktopIcons).length / 5 ≤
        varyCount cfg.desktopIcons 3 r ∧
      varyCount cfg.desktopIcons 3 r ≤ (optionalOf cfg.desktopIcons).length ∧
      (varySampled cfg.desktopIcons 3 r).length =
        varyCount cfg.desktopIcons 3 r ∧
      (∀ a ∈ varySampled cfg.desktopIcons 3 r,
        a ∈ optionalOf cfg.desktopIcons) ∧
      (varySampled cfg.desktopIcons 3 r).Nodup) ∧
    (elVaryN (getElementByLabel cfg ("taskbar")) = false →
      (selectIds (elVaryN (getElementByLabel cfg ("taskbar"))) 2
          cfg.taskbarIcons hint r).1 =
        requiredOf cfg.taskbarIcons ++
          (optionalOf cfg.taskbarIcons).take
            (hint - (requiredOf cfg.taskbarIcons).length)) ∧
    (elVaryN (getElementByLabel cfg ("taskbar")) = true →
      (selectIds (elVaryN (getElementByLabel cfg ("taskbar"))) 2
          cfg.taskbarIcons hint r).1 =
        requiredOf cfg.taskbarIcons ++ varySampled cfg.taskbarIcons 2 r ∧
      2 * (optionalOf cfg.taskbarIcons).length / 5 ≤
        varyCount cfg.taskbarIcons 2 r ∧
      varyCount cfg.taskbarIcons 2 r ≤ (optionalOf cfg.taskbarIcons).length ∧
      (varySampled cfg.taskbarIcons 2 r).length =
        varyCount cfg.taskbarIcons 2 r ∧
      (∀ a ∈ varySampled cfg.taskbarIcons 2 r,
        a ∈ optionalOf cfg.taskbarIcons) ∧
      (varySampled cfg.taskbarIcons 2 r).Nodup) := by
  refine ⟨fun hv => ?_, fun hv => ?_, fun hv => ?_, fun hv => ?_⟩
  · rw [hv]
    exact selectIds_novary_spec 3 cfg.desktopIcons hint r
  · rw [hv]
    exact selectIds_vary_spec 3 cfg.desktopIcons hint r hndD (by omega)
  · rw [hv]
    exact selectIds_novary_spec 2 cfg.taskbarIcons hint r
  · rw [hv]
    exact selectIds_vary_spec 2 cfg.taskbarIcons hint r hndT (by omega)

theorem subset_selection_modes_witness :
    (selectIds (elVaryN (getElementByLabel cfgFallback ("desktop"))) 3
        cfgFallback.desktopIcons 5 rngW).1 =
      requiredOf cfgFallback.desktopIcons ++
        varySampled cfgFallback.desktopIcons 3 rngW ∧
    3 * (optionalOf cfgFallback.desktopIcons).length / 5 ≤
      varyCount cfgFallback.desktopIcons 3 rngW ∧
    (varySampled cfgFallback.desktopIcons 3 rngW).Nodup := by
  have h := (subset_selection_modes cfgFallback 5 rngW (by decide)
    (by decide)).2.1 (by decide)
  exact ⟨h.1, h.2.1, h.2.2.2.2.2⟩

/-- The i-th candidate position the random strategy's rejection loop
draws from a given random state: two consecutive stream draws, reduced
into the bounded coordinate ranges. -/
def randCandidate (iconW iconH : Nat) (r : Rng) (i : Nat) : Nat × Nat :=
  (20 + r.stream (r.pos + 2 * i) % (randMaxX iconW + 1 - 20),
   20 + r.stream (r.pos + 2 * i + 1) % (randMaxY iconH + 1 - 20))

theorem randCandidate_shift (iconW iconH : Nat) (st : Nat → Nat) (p i : Nat) :
    randCandidate iconW iconH ⟨st, p + 1 + 1⟩ i =
      randCandidate iconW iconH ⟨st, p⟩ (i + 1) := by
  unfold randCandidate
  dsimp only
  rw [show p + 1 + 1 + 2 * i = p + 2 * (i + 1) from by ring]

theorem tryPosition_succ (iconW iconH : Nat) (used : List (Nat × Nat))
    (m : Nat) (r : Rng) :
    tryPosition iconW iconH used (m + 1) r =
      if overlapsAny iconW iconH used (randCandidate iconW iconH r 0).1
          (randCandidate iconW iconH r 0).2 then
        (if m == 0 then
          (randCandidate iconW iconH r 0, (⟨r.stream, r.pos + 1 + 1⟩ : Rng))
         else tryPosition iconW iconH used m ⟨r.stream, r.pos + 1 + 1⟩)
      else (randCandidate iconW iconH r 0, (⟨r.stream, r.pos + 1 + 1⟩ : Rng)) :=
  rfl

theorem tryPosition_spec (iconW iconH : Nat) (used : List (Nat × Nat)) :
    ∀ (n : Nat) (r : Rng), 0 < n →
      (∃ i, i < n ∧
        (∀ j, j < i → overlapsAny iconW iconH used
          (randCandidate iconW iconH r j).1
          (randCandidate iconW iconH r j).2 = true) ∧
        overlapsAny iconW iconH used (randCandidate iconW iconH r i).1
          (randCandidate iconW iconH r i).2 = false ∧
        (tryPosition iconW iconH used n r).1 = randCandidate iconW iconH r i) ∨
      ((∀ i, i < n → overlapsAny iconW iconH used
          (randCandidate iconW iconH r i).1
          (randCandidate iconW iconH r i).2 = true) ∧
        (tryPosition iconW iconH used n r).1 =
          randCandidate iconW iconH r (n - 1)) := by
  intro n
  induction n with
  | zero => intro r h; omega
  | succ m ih =>
    intro r _
    rcases hov : overlapsAny iconW iconH used
        (randCandidate iconW iconH r 0).1 (randCandidate iconW iconH r 0).2
      with _ | _
    · left
      refine ⟨0, by omega, by omega, hov, ?_⟩
      rw [tryPosition_succ, hov]
      simp
    · rcases Nat.eq_zero_or_pos m with hm | hm
      · subst hm
        right
        refine ⟨?_, ?_⟩
        · intro i hi
          have hz : i = 0 := by omega
          subst hz
          exact hov
        · rw [tryPosition_succ, hov]
          simp
      · have hm0 : (m == 0) = false := by
          simp only [beq_eq_false_iff_ne]
          omega
        have hstep : (tryPosition iconW iconH used (m + 1) r).1 =
            (tryPosition iconW iconH used m ⟨r.stream, r.pos + 1 + 1⟩).1 := by
          rw [tryPosition_succ, hov, hm0]
          simp
        have ihr := ih ⟨r.stream, r.pos + 1 + 1⟩ hm
        rcases ihr with ⟨i, hi, hj, hok, heq⟩ | ⟨hall, heq⟩
        · left
          refine ⟨i + 1, by omega, ?_, ?_, ?_⟩
          · intro j hjlt
            rcases Nat.eq_zero_or_pos j with hj0 | hj0
            · subst hj0
              exact hov
            · obtain ⟨j2, rfl⟩ : ∃ j2, j = j2 + 1 := ⟨j - 1, by omega⟩
              rw [← randCandidate_shift]
              exact hj j2 (by omega)
          · rw [← randCandidate_shift]
            exact hok
          · rw [← randCandidate_shift, hstep]
            exact heq
        · right
          refine ⟨?_, ?_⟩
          · intro i hi
            rcases Nat.eq_zero_or_pos i with hi0 | hi0
            · subst hi0
              exact hov
            · obtain ⟨i2, rfl⟩ : ∃ i2, i = i2 + 1 := ⟨i - 1, by omega⟩
              rw [← randCandidate_shift]
              exact hall i2 (by omega)
          · have hsub : m + 1 - 1 = (m - 1) + 1 := by omega
            rw [hstep, heq, hsub, ← randCandidate_shift]

/-- C6: the random desktop strategy is rejection sampling with a budget
of 50 attempts per icon: for each icon it draws successive
uniform-random candidates inside the margin-reduced desktop bounds and
accepts the first whose offset to every already-placed position fails the
test dist x below cellWidth and dist y below cellHeight; when all 50
candidates collide the 50th is accepted regardless of overlap, and the
loop is total, never raising an error.  Every candidate lies inside the
bounds 20..randMaxX by 20..randMaxY. -/
theorem random_strategy_spec (iconW iconH : Nat) (used : List (Nat × Nat))
    (r : Rng) (hx : 20 ≤ randMaxX iconW) (hy : 20 ≤ randMaxY iconH) :
    ((∃ i, i < 50 ∧
        (∀ j, j < i → overlapsAny iconW iconH used
          (randCandidate iconW iconH r j).1
          (randCandidate iconW iconH r j).2 = true) ∧
        overlapsAny iconW iconH used (randCandidate iconW iconH r i).1
          (randCandidate iconW iconH r i).2 = false ∧
        (tryPosition iconW iconH used 50 r).1 = randCandidate iconW iconH r i) ∨
      ((∀ i, i < 50 → overlapsAny iconW iconH used
          (randCandidate iconW iconH r i).1
          (randCandidate iconW iconH r i).2 = true) ∧
        (tryPosition iconW iconH used 50 r).1 =
          randCandidate iconW iconH r 49)) ∧
    (∀ i, 20 ≤ (randCandidate iconW iconH r i).1 ∧
      (randCandidate iconW iconH r i).1 ≤ randMaxX iconW ∧
      20 ≤ (randCandidate iconW iconH r i).2 ∧
      (randCandidate iconW iconH r i).2 ≤ randMaxY iconH) ∧
    (∀ p : Nat × Nat, overlapsAny iconW iconH used p.1 p.2 = false ↔
      ∀ q ∈ used, ¬ (Nat.dist p.1 q.1 < cellWidth iconW ∧
        Nat.dist p.2 q.2 < cellHeight iconH)) := by
  refine ⟨tryPosition_spec iconW iconH used 50 r (by omega), ?_, ?_⟩
  · intro i
    unfold randCandidate
    have h1 : r.stream (r.pos + 2 * i) % (randMaxX iconW + 1 - 20) <
        randMaxX iconW + 1 - 20 := Nat.mod_lt _ (by omega)
    have h2 : r.stream (r.pos + 2 * i + 1) % (randMaxY iconH + 1 - 20) <
        randMaxY iconH + 1 - 20 := Nat.mod_lt _ (by omega)
    simp only
    omega
  · intro p
    simp [overlapsAny, List.any_eq_false, Decidable.not_and_iff_or_not]

theorem random_strategy_spec_witness :
    20 ≤ (randCandidate 54 54 rngW 0).1 ∧
    (randCandidate 54 54 rngW 0).1 ≤ randMaxX 54 :=
  ⟨((random_strategy_spec 54 54 [] rngW (by decide) (by decide)).2.1 0).1,
   ((random_strategy_spec 54 54 [] rngW (by decide) (by decide)).2.1 0).2.1⟩

/-- Intersection of two placements' half-open pixel bounding boxes. -/
def intersects (p q : IconPlacement) : Prop :=
  p.x < q.x + q.width ∧ q.x < p.x + p.width ∧
  p.y < q.y + q.height ∧ q.y < p.y + p.height

instance (p q : IconPlacement) : Decidable (intersects p q) := by
  unfold intersects; infer_instance

/-- No two distinct placements of the list have intersecting boxes
(the relation is symmetric, so the pairwise form covers every distinct
pair). -/
def nonOverlapping (l : List IconPlacement) : Prop :=
  List.Pairwise (fun p q => ¬ intersects p q) l

theorem stackedFrom_get (iconW iconH : Nat) (icons : Catalog) :
    ∀ (ids : List String) (i j : Nat)
      (h : j < (stackedFrom iconW iconH icons i ids).length),
      ((stackedFrom iconW iconH icons i ids).get ⟨j, h⟩).x =
          20 + ((i + j) / 8) * cellWidth iconW ∧
      ((stackedFrom iconW iconH icons i ids).get ⟨j, h⟩).y =
          20 + ((i + j) % 8) * cellHeight iconH ∧
      ((stackedFrom iconW iconH icons i ids).get ⟨j, h⟩).width = iconW ∧
      ((stackedFrom iconW iconH icons i ids).get ⟨j, h⟩).height = iconH
  | [], i, j, h => by simp [stackedFrom] at h
  | id :: rest, i, 0, h => by simp [stackedFrom]
  | id :: rest, i, j + 1, h => by
    have ih := stackedFrom_get iconW iconH icons rest (i + 1) j
      (by simpa [stackedFrom] using h)
    simpa [stackedFrom, show i + 1 + j = i + (j + 1) from by ring] using ih

theorem grid_cells_disjoint (iconW iconH a b c d : Nat)
    (hne : ¬ (a = c ∧ b = d)) :
    ¬ ((20 + a * cellWidth iconW < 20 + c * cellWidth iconW + iconW ∧
        20 + c * cellWidth iconW < 20 + a * cellWidth iconW + iconW) ∧
       (20 + b * cellHeight iconH < 20 + d * cellHeight iconH + iconH ∧
        20 + d * cellHeight iconH < 20 + b * cellHeight iconH + iconH)) := by
  have hcw : cellWidth iconW = iconW + 20 := rfl
  have hch : cellHeight iconH = iconH + 40 := rfl
  intro h
  rcases Nat.lt_trichotomy a c with hac | hac | hac
  · have hm : a * cellWidth iconW + cellWidth iconW ≤ c * cellWidth iconW := by
      calc a * cellWidth iconW + cellWidth iconW
          = (a + 1) * cellWidth iconW := by ring
        _ ≤ c * cellWidth iconW := Nat.mul_le_mul_right _ hac
    omega
  · have hbd : ¬ b = d := fun hb => hne ⟨hac, hb⟩
    rcases Nat.lt_trichotomy b d with hb | hb | hb
    · have hm : b * cellHeight iconH + cellHeight iconH ≤
          d * cellHeight iconH := by
        calc b * cellHeight iconH + cellHeight iconH
            = (b + 1) * cellHeight iconH := by ring
          _ ≤ d * cellHeight iconH := Nat.mul_le_mul_right _ hb
      omega
    · exact hbd hb
    · have hm : d * cellHeight iconH + cellHeight iconH ≤
          b * cellHeight iconH := by
        calc d * cellHeight iconH + cellHeight iconH
            = (d + 1) * cellHeight iconH := by ring
          _ ≤ b * cellHeight iconH := Nat.mul_le_mul_right _ hb
      omega
  · have hm : c * cellWidth iconW + cellWidth iconW ≤ a * cellWidth iconW := by
      calc c * cellWidth iconW + cellWidth iconW
          = (c + 1) * cellWidth iconW := by ring
        _ ≤ a * cellWidth iconW := Nat.mul_le_mul_right _ hac
    omega

theorem stacked_nonoverlap (iconW iconH : Nat) (icons : Catalog)
    (ids : List String) :
    nonOverlapping (stackedFrom iconW iconH icons 0 ids) := by
  rw [nonOverlapping, List.pairwise_iff_getElem]
  intro j k hj hk hjk
  have hgj := stackedFrom_get iconW iconH icons ids 0 j hj
  have hgk := stackedFrom_get iconW iconH icons ids 0 k hk
  simp only [List.get_eq_getElem, Nat.zero_add] at hgj hgk
  intro hint
  rcases hint with ⟨h1, h2, h3, h4⟩
  rw [hgj.1, hgk.1, hgk.2.2.1] at h1
  rw [hgk.1, hgj.1, hgj.2.2.1] at h2
  rw [hgj.2.1, hgk.2.1, hgk.2.2.2] at h3
  rw [hgk.2.1, hgj.2.1, hgj.2.2.2] at h4
  exact grid_cells_disjoint iconW iconH (j / 8) (j % 8) (k / 8) (k % 8)
    (fun hqr => by omega) ⟨⟨h1, h2⟩, h3, h4⟩

theorem sparse_cells_disjoint (iconW iconH a b c d : Nat)
    (hne : ¬ (a = c ∧ b = d)) :
    ¬ ((20 + 3 * a * cellWidth iconW / 2 <
          20 + 3 * c * cellWidth iconW / 2 + iconW ∧
        20 + 3 * c * cellWidth iconW / 2 <
          20 + 3 * a * cellWidth iconW / 2 + iconW) ∧
       (20 + b * cellHeight iconH < 20 + d * cellHeight iconH + iconH ∧
        20 + d * cellHeight iconH < 20 + b * cellHeight iconH + iconH)) := by
  have hcw : cellWidth iconW = iconW + 20 := rfl
  have hch : cellHeight iconH = iconH + 40 := rfl
  intro h
  rcases Nat.lt_trichotomy a c with hac | hac | hac
  · have hm : 3 * a * cellWidth iconW + 3 * cellWidth iconW ≤
        3 * c * cellWidth iconW := by
      calc 3 * a * cellWidth iconW + 3 * cellWidth iconW
          = (a + 1) * (3 * cellWidth iconW) := by ring
        _ ≤ c * (3 * cellWidth iconW) := Nat.mul_le_mul_right _ hac
        _ = 3 * c * cellWidth iconW := by ring
    omega
  · have hbd : ¬ b = d := fun hb => hne ⟨hac, hb⟩
    rcases Nat.lt_trichotomy b d with hb | hb | hb
    · have hm : b * cellHeight iconH + cellHeight iconH ≤
          d * cellHeight iconH := by
        calc b * cellHeight iconH + cellHeight iconH
            = (b + 1) * cellHeight iconH := by ring
          _ ≤ d * cellHeight iconH := Nat.mul_le_mul_right _ hb
      omega
    · exact hbd hb
    · have hm : d * cellHeight iconH + cellHeight iconH ≤
          b * cellHeight iconH := by
        calc d * cellHeight iconH + cellHeight iconH
            = (d + 1) * cellHeight iconH := by ring
          _ ≤ b * cellHeight iconH := Nat.mul_le_mul_right _ hb
      omega
  · have hm : 3 * c * cellWidth iconW + 3 * cellWidth iconW ≤
        3 * a * cellWidth iconW := by
      calc 3 * c * cellWidth iconW + 3 * cellWidth iconW
          = (c + 1) * (3 * cellWidth iconW) := by ring
        _ ≤ a * (3 * cellWidth iconW) := Nat.mul_le_mul_right _ hac
        _ = 3 * a * cellWidth iconW := by ring
    omega

theorem sparse_nonoverlap (iconW iconH : Nat) (icons : Catalog)
    (ids : List String) (r : Rng) :
    nonOverlapping ((sparsePlace iconW iconH icons ids r).1) := by
  rw [sparsePlace_parts]
  have h0 : sparseCells.Nodup := by decide
  have hball : ∀ c ∈ sparseCells, c.1 < 6 ∧ c.2 < 8 := by decide
  have h1 : ((rshuffle r sparseCells).1).Nodup :=
    ((rshuffle_perm r sparseCells).nodup_iff).mpr h0
  have h2 : (((rshuffle r sparseCells).1).take ids.length).Nodup :=
    h1.sublist (List.take_sublist _ _)
  have hnd : (List.insertionSort cellLe
      (((rshuffle r sparseCells).1).take ids.length)).Nodup :=
    ((List.perm_insertionSort cellLe _).nodup_iff).mpr h2
  have hbound : ∀ c ∈ List.insertionSort cellLe
      (((rshuffle r sparseCells).1).take ids.length), c.1 < 6 ∧ c.2 < 8 := by
    intro c hcmem
    have hm1 : c ∈ ((rshuffle r sparseCells).1).take ids.length :=
      (List.mem_insertionSort cellLe).mp hcmem
    have hm2 : c ∈ (rshuffle r sparseCells).1 :=
      (List.take_sublist _ _).mem hm1
    exact hball c ((rshuffle_perm r sparseCells).mem_iff.mp hm2)
  rw [nonOverlapping, List.pairwise_iff_getElem]
  intro j k hj hk hjk
  rw [List.length_zipWith] at hj hk
  have hjc : j < (List.insertionSort cellLe
      (((rshuffle r sparseCells).1).take ids.length)).length := by omega
  have hkc : k < (List.insertionSort cellLe
      (((rshuffle r sparseCells).1).take ids.length)).length := by omega
  have hji : j < ids.length := by omega
  have hki : k < ids.length := by omega
  set cells := List.insertionSort cellLe
    (((rshuffle r sparseCells).1).take ids.length) with hcells
  have hcne : ¬ (cells[j].1 = cells[k].1 ∧ cells[j].2 = cells[k].2) := by
    intro hqr
    have he : cells[j] = cells[k] := Prod.ext hqr.1 hqr.2
    have := (List.Nodup.getElem_inj_iff hnd).mp he
    omega
  simp only [List.getElem_zipWith]
  intro hint
  rcases hint with ⟨i1, i2, i3, i4⟩
  simp only [sparseMk] at i1 i2 i3 i4
  exact sparse_cells_disjoint iconW iconH cells[j].1 cells[j].2 cells[k].1
    cells[k].2 hcne ⟨⟨i1, i2⟩, i3, i4⟩

/-- C7: under the stacked or sparse layout strategy, no two distinct
desktop placements have intersecting bounding boxes. -/
theorem stacked_sparse_no_overlap (cfg : AnnConfig) (r : Rng) (n : Nat)
    (hsty : (desktopStyle cfg r n).1 = "stacked" ∨
      (desktopStyle cfg r n).1 = "sparse") :
    nonOverlapping ((placeDesktopIcons cfg r n).1) := by
  unfold placeDesktopIcons
  rcases h2 : desktopStyle cfg r n with ⟨style, r2⟩
  rw [h2] at hsty
  simp only at hsty
  rcases hsty with h | h
  · subst h
    dsimp only
    rw [if_pos rfl]
    exact stacked_nonoverlap cfg.iconW cfg.iconH cfg.desktopIcons _
  · subst h
    dsimp only
    rw [if_neg (by decide), if_pos rfl]
    exact sparse_nonoverlap cfg.iconW cfg.iconH cfg.desktopIcons _ r2

theorem stacked_sparse_no_overlap_witness :
    nonOverlapping ((placeDesktopIcons cfgFallback rngW 5).1) :=
  stacked_sparse_no_overlap cfgFallback rngW 5 (Or.inl (by decide))

end DesktopGen
